import Mathlib

/-!
# Verification of the technical-indicator signal analysis engine

Shallow embedding, in Lean 4, of the deterministic classifier code of the
repository (candlestick pattern matcher, trend-slope estimators, crossover
detectors, divergence detectors, degenerate-arithmetic behaviour of the
KDJ/BOLL strength classifiers, and the `analyze_indicators` aggregator),
together with theorems settling the frozen claims about it.

Conventions of the embedding:

* Python floats are modelled by `ℚ`.  Decimal literals of the source
  (`0.1`, `0.3`, `0.5`, `0.001`, …) are read as the exact rationals they
  denote; the claims under study never hinge on the deviation between a
  float literal and its decimal reading.
* A pandas value that can be NaN or ±inf (centred rolling windows near the
  series edge, divisions with a zero denominator) is modelled by the type
  `PyFloat` below, with the IEEE comparison semantics the code relies on
  (every comparison with NaN is false).
* `iloc[-k]` on a length-`n` frame is element `n - k`; it raises for
  `k > n`, which is modelled by `Except.error` with pandas' message.
* `df.tail(n)` is the suffix of length `min n (length df)`.
-/

deriving instance DecidableEq for Except

/-- One OHLC row of the candlestick DataFrame (columns `open`, `close`,
`high`, `low` are the only ones the pattern matcher reads). -/
structure Bar where
  op : ℚ
  cl : ℚ
  hi : ℚ
  lo : ℚ
deriving DecidableEq, Inhabited

/-! ## Single-bar predicates (`candlestick_analyzer.py`) -/

/-- `is_doji`: body ≤ 10% of range and both shadows exceed the body. -/
def is_doji (open_price close_price high low : ℚ) : Bool :=
  let body := |open_price - close_price|
  let upper_shadow := high - max open_price close_price
  let lower_shadow := min open_price close_price - low
  let total_range := high - low
  decide (body ≤ total_range * (1/10) ∧ upper_shadow > body ∧ lower_shadow > body)

/-- `is_hammer`: lower shadow ≥ 2×body, upper shadow ≤ 10% of body,
body ≥ 10% of range. -/
def is_hammer (open_price close_price high low : ℚ) : Bool :=
  let body := |open_price - close_price|
  let upper_shadow := high - max open_price close_price
  let lower_shadow := min open_price close_price - low
  let total_range := high - low
  decide (lower_shadow ≥ body * 2 ∧ upper_shadow ≤ body * (1/10) ∧
    body ≥ total_range * (1/10))

/-- `is_shooting_star`. -/
def is_shooting_star (open_price close_price high low : ℚ) : Bool :=
  let body := |open_price - close_price|
  let upper_shadow := high - max open_price close_price
  let lower_shadow := min open_price close_price - low
  let total_range := high - low
  decide (upper_shadow ≥ body * 2 ∧ lower_shadow ≤ body * (1/10) ∧
    body ≥ total_range * (1/10))

/-- `is_long_legged_doji`. -/
def is_long_legged_doji (open_price close_price high low : ℚ) : Bool :=
  let body := |open_price - close_price|
  let upper_shadow := high - max open_price close_price
  let lower_shadow := min open_price close_price - low
  let total_range := high - low
  decide (body ≤ total_range * (1/10) ∧ upper_shadow ≥ total_range * (3/10) ∧
    lower_shadow ≥ total_range * (3/10))

/-- `is_gravestone_doji`. -/
def is_gravestone_doji (open_price close_price high low : ℚ) : Bool :=
  let body := |open_price - close_price|
  let upper_shadow := high - max open_price close_price
  let lower_shadow := min open_price close_price - low
  let total_range := high - low
  decide (body ≤ total_range * (1/10) ∧ upper_shadow ≥ total_range * (6/10) ∧
    lower_shadow ≤ total_range * (1/10))

/-- `is_spinning_top`. -/
def is_spinning_top (open_price close_price high low : ℚ) : Bool :=
  let body := |open_price - close_price|
  let upper_shadow := high - max open_price close_price
  let lower_shadow := min open_price close_price - low
  let total_range := high - low
  decide (body ≤ total_range * (3/10) ∧ upper_shadow ≥ body ∧ lower_shadow ≥ body ∧
    |upper_shadow - lower_shadow| ≤ total_range * (1/10))

/-- `is_inverted_hammer`. -/
def is_inverted_hammer (open_price close_price high low : ℚ) : Bool :=
  let body := |open_price - close_price|
  let upper_shadow := high - max open_price close_price
  let lower_shadow := min open_price close_price - low
  let total_range := high - low
  decide (upper_shadow ≥ body * 2 ∧ lower_shadow ≤ body * (1/10) ∧
    body ≥ total_range * (1/10))

/-- `is_hanging_man` (a hammer shape that closes below its open). -/
def is_hanging_man (open_price close_price high low : ℚ) : Bool :=
  let body := |open_price - close_price|
  let upper_shadow := high - max open_price close_price
  let lower_shadow := min open_price close_price - low
  let total_range := high - low
  decide (lower_shadow ≥ body * 2 ∧ upper_shadow ≤ body * (1/10) ∧
    body ≥ total_range * (1/10) ∧ close_price < open_price)

/-! ## Multi-bar predicates -/

/-- `is_bullish_engulfing`. -/
def is_bullish_engulfing (day1 day2 : Bar) : Bool :=
  decide (day1.cl < day1.op ∧ day2.cl > day2.op ∧ day2.op < day1.cl ∧ day2.cl > day1.op)

/-- `is_bearish_engulfing`. -/
def is_bearish_engulfing (day1 day2 : Bar) : Bool :=
  decide (day1.cl > day1.op ∧ day2.cl < day2.op ∧ day2.op > day1.cl ∧ day2.cl < day1.op)

/-- `is_harami` (bullish flag selects the bullish/bearish variant). -/
def is_harami (day1 day2 : Bar) (bullish : Bool) : Bool :=
  if bullish then
    decide (day1.cl < day1.op ∧ day2.cl > day2.op ∧ day2.op > day1.cl ∧
      day2.cl < day1.op ∧ |day2.cl - day2.op| < |day1.cl - day1.op| * (1/2))
  else
    decide (day1.cl > day1.op ∧ day2.cl < day2.op ∧ day2.op < day1.cl ∧
      day2.cl > day1.op ∧ |day2.cl - day2.op| < |day1.cl - day1.op| * (1/2))

/-- `is_tweezer` (bullish = tweezer bottom, otherwise tweezer top). -/
def is_tweezer (day1 day2 : Bar) (bullish : Bool) : Bool :=
  let price_diff_threshold := (day1.hi - day1.lo) * (1/1000)
  if bullish then
    decide (day1.cl < day1.op ∧ day2.cl > day2.op ∧
      |day1.lo - day2.lo| ≤ price_diff_threshold)
  else
    decide (day1.cl > day1.op ∧ day2.cl < day2.op ∧
      |day1.hi - day2.hi| ≤ price_diff_threshold)

/-- `is_piercing_line`. -/
def is_piercing_line (day1 day2 : Bar) : Bool :=
  let mid_point := (day1.op + day1.cl) / 2
  decide (day1.cl < day1.op ∧ day2.cl > day2.op ∧ day2.op < day1.cl ∧
    day2.cl > mid_point)

/-- `is_dark_cloud_cover`. -/
def is_dark_cloud_cover (day1 day2 : Bar) : Bool :=
  let mid_point := (day1.op + day1.cl) / 2
  decide (day1.cl > day1.op ∧ day2.cl < day2.op ∧ day2.op > day1.cl ∧
    day2.cl < mid_point)

/-- `is_gap` (bullish = upward gap, otherwise downward gap). -/
def is_gap (day1 day2 : Bar) (bullish : Bool) : Bool :=
  if bullish then decide (day2.lo > day1.hi) else decide (day2.hi < day1.lo)

/-- `is_flat_top_bottom` (`is_top` selects flat top / flat bottom). -/
def is_flat_top_bottom (day1 day2 : Bar) (is_top : Bool) : Bool :=
  let price_diff_threshold := (day1.hi - day1.lo) * (1/1000)
  if is_top then decide (|day1.hi - day2.hi| ≤ price_diff_threshold)
  else decide (|day1.lo - day2.lo| ≤ price_diff_threshold)

/-- `is_inside_bar`. -/
def is_inside_bar (day1 day2 : Bar) : Bool :=
  decide (day2.hi < day1.hi ∧ day2.lo > day1.lo)

/-- `is_outside_bar`. -/
def is_outside_bar (day1 day2 : Bar) : Bool :=
  decide (day2.hi > day1.hi ∧ day2.lo < day1.lo)

/-- `is_morning_star` on the three bars `days.iloc[0..2]`. -/
def is_morning_star (day1 day2 day3 : Bar) : Bool :=
  decide (day1.cl < day1.op ∧ |day2.cl - day2.op| < (day2.hi - day2.lo) * (3/10) ∧
    day3.cl > day3.op ∧ day2.hi < day1.cl ∧ day3.cl > (day1.op + day1.cl) / 2)

/-- `is_evening_star`. -/
def is_evening_star (day1 day2 day3 : Bar) : Bool :=
  decide (day1.cl > day1.op ∧ |day2.cl - day2.op| < (day2.hi - day2.lo) * (3/10) ∧
    day3.cl < day3.op ∧ day2.lo > day1.cl ∧ day3.cl < (day1.op + day1.cl) / 2)

/-- `is_three_white_soldiers`. -/
def is_three_white_soldiers (day1 day2 day3 : Bar) : Bool :=
  decide (day1.cl > day1.op ∧ day2.cl > day2.op ∧ day3.cl > day3.op ∧
    day2.cl > day1.cl ∧ day3.cl > day2.cl ∧ day2.op > day1.op ∧ day3.op > day2.op)

/-- `is_three_black_crows`. -/
def is_three_black_crows (day1 day2 day3 : Bar) : Bool :=
  decide (day1.cl < day1.op ∧ day2.cl < day2.op ∧ day3.cl < day3.op ∧
    day2.cl < day1.cl ∧ day3.cl < day2.cl ∧ day2.op < day1.op ∧ day3.op < day2.op)

/-- `is_three_inside`, returning (bullish, bearish). -/
def is_three_inside (day1 day2 day3 : Bar) : Bool × Bool :=
  (is_inside_bar day1 day2 &&
     decide (day1.cl < day1.op ∧ day3.cl > day3.op ∧ day3.cl > day2.hi),
   is_inside_bar day1 day2 &&
     decide (day1.cl > day1.op ∧ day3.cl < day3.op ∧ day3.cl < day2.lo))

/-- `is_three_outside`, returning (bullish, bearish). -/
def is_three_outside (day1 day2 day3 : Bar) : Bool × Bool :=
  (is_outside_bar day1 day2 &&
     decide (day1.cl < day1.op ∧ day2.cl > day2.op ∧ day3.cl > day3.op ∧ day3.cl > day2.hi),
   is_outside_bar day1 day2 &&
     decide (day1.cl > day1.op ∧ day2.cl < day2.op ∧ day3.cl < day3.op ∧ day3.cl < day2.lo))

/-- `is_three_mountains`. -/
def is_three_mountains (day1 day2 day3 : Bar) : Bool :=
  decide (day2.hi > day1.hi ∧ day2.hi > day3.hi ∧
    |day1.hi - day3.hi| ≤ (day1.hi - day1.lo) * (1/10))

/-- `is_three_rivers`. -/
def is_three_rivers (day1 day2 day3 : Bar) : Bool :=
  decide (day2.lo < day1.lo ∧ day2.lo < day3.lo ∧
    |day1.lo - day3.lo| ≤ (day1.hi - day1.lo) * (1/10))

/-- `is_three_stars` (three consecutive dojis). -/
def is_three_stars (day1 day2 day3 : Bar) : Bool :=
  is_doji day1.op day1.cl day1.hi day1.lo &&
  is_doji day2.op day2.cl day2.hi day2.lo &&
  is_doji day3.op day3.cl day3.hi day3.lo

/-- `is_island_reversal`. -/
def is_island_reversal (day1 day2 day3 : Bar) (bullish : Bool) : Bool :=
  if bullish then decide (day2.lo > day1.hi ∧ day3.hi < day2.lo)
  else decide (day2.hi < day1.lo ∧ day3.lo > day2.hi)

/-- `is_three_line_strike` on four bars, returning (bullish, bearish);
mirrors the source's early-return structure. -/
def is_three_line_strike (day1 day2 day3 day4 : Bar) : Bool × Bool :=
  let bullish := decide (day1.cl < day1.op ∧ day2.cl < day2.op ∧ day3.cl < day3.op)
  let bearish := decide (day1.cl > day1.op ∧ day2.cl > day2.op ∧ day3.cl > day3.op)
  if bullish then
    (decide (day4.cl > day4.op ∧ day4.cl > day1.op), false)
  else if bearish then
    (false, decide (day4.cl < day4.op ∧ day4.cl < day1.op))
  else
    (false, false)

/-- `is_rising_three_methods` on five bars. -/
def is_rising_three_methods (day1 day2 day3 day4 day5 : Bar) : Bool :=
  decide (day1.cl > day1.op ∧ day5.cl > day5.op ∧ day5.cl > day1.cl ∧
    day2.cl < day2.op ∧ day3.cl < day3.op ∧ day4.cl < day4.op ∧
    day2.lo > day1.op ∧ day3.lo > day1.op ∧ day4.lo > day1.op)

/-- `is_falling_three_methods` on five bars. -/
def is_falling_three_methods (day1 day2 day3 day4 day5 : Bar) : Bool :=
  decide (day1.cl < day1.op ∧ day5.cl < day5.op ∧ day5.cl < day1.cl ∧
    day2.cl > day2.op ∧ day3.cl > day3.op ∧ day4.cl > day4.op ∧
    day2.hi < day1.op ∧ day3.hi < day1.op ∧ day4.hi < day1.op)

/-! ## Candidate collection and priority resolution -/

/-- A multi-day candidate match: the dict
`{"type", "pattern", "priority", "is_bullish"}` built in
`analyze_candlestick_patterns`. -/
structure PatternMatch where
  ptype : String
  pattern : String
  priority : ℕ
  is_bullish : Bool
deriving DecidableEq, Inhabited

/-- `list.sort(key=priority, reverse=True)`: a stable descending sort by
priority (Python's sort is stable, so first-registered order breaks ties). -/
def sortByPriorityDesc (l : List PatternMatch) : List PatternMatch :=
  List.insertionSort (fun a b => b.priority ≤ a.priority) l

/-- Sort the candidates by descending priority and take the first
(`two_day_patterns[0]` after the sort), if any. -/
def selectTopPattern (l : List PatternMatch) : Option PatternMatch :=
  (sortByPriorityDesc l).head?

/-- Specification-side selection: the first-registered candidate of maximal
priority. -/
def firstMaxPriority : List PatternMatch → Option PatternMatch
  | [] => none
  | a :: l =>
    match firstMaxPriority l with
    | none => some a
    | some b => if b.priority ≤ a.priority then some a else some b

/-- The two-day candidate list, in registration order
(`candlestick_analyzer.py` lines 122–220). -/
def two_day_patterns (prev_day latest_day : Bar) : List PatternMatch :=
  (if is_bullish_engulfing prev_day latest_day then
    [⟨"两日形态", "看涨吞没形态", 5, true⟩] else []) ++
  (if is_bearish_engulfing prev_day latest_day then
    [⟨"两日形态", "看跌吞没形态", 5, false⟩] else []) ++
  (if is_harami prev_day latest_day true then
    [⟨"两日形态", "看涨孕线形态", 4, true⟩] else []) ++
  (if is_harami prev_day latest_day false then
    [⟨"两日形态", "看跌孕线形态", 4, false⟩] else []) ++
  (if is_piercing_line prev_day latest_day then
    [⟨"两日形态", "刺透形态", 4, true⟩] else []) ++
  (if is_dark_cloud_cover prev_day latest_day then
    [⟨"两日形态", "乌云盖顶形态", 4, false⟩] else []) ++
  (if is_tweezer prev_day latest_day true then
    [⟨"两日形态", "镊子底形态", 3, true⟩] else []) ++
  (if is_tweezer prev_day latest_day false then
    [⟨"两日形态", "镊子顶形态", 3, false⟩] else []) ++
  (if is_gap prev_day latest_day true then
    [⟨"两日形态", "向上跳空缺口", 3, true⟩] else []) ++
  (if is_gap prev_day latest_day false then
    [⟨"两日形态", "向下跳空缺口", 3, false⟩] else []) ++
  (if is_flat_top_bottom prev_day latest_day true then
    [⟨"两日形态", "平头顶形态", 2, false⟩] else []) ++
  (if is_flat_top_bottom prev_day latest_day false then
    [⟨"两日形态", "平头底形态", 2, true⟩] else [])

/-- The three-day candidate list, in registration order (lines 240–347). -/
def three_day_patterns (d1 d2 d3 : Bar) : List PatternMatch :=
  (if is_morning_star d1 d2 d3 then
    [⟨"三日形态", "启明星形态", 5, true⟩] else []) ++
  (if is_evening_star d1 d2 d3 then
    [⟨"三日形态", "黄昏星形态", 5, false⟩] else []) ++
  (if is_three_white_soldiers d1 d2 d3 then
    [⟨"三日形态", "三白兵形态", 4, true⟩] else []) ++
  (if is_three_black_crows d1 d2 d3 then
    [⟨"三日形态", "三黑鸦形态", 4, false⟩] else []) ++
  (if (is_three_inside d1 d2 d3).1 then
    [⟨"三日形态", "看涨三内形态", 3, true⟩] else []) ++
  (if (is_three_inside d1 d2 d3).2 then
    [⟨"三日形态", "看跌三内形态", 3, false⟩] else []) ++
  (if (is_three_outside d1 d2 d3).1 then
    [⟨"三日形态", "看涨三外形态", 3, true⟩] else []) ++
  (if (is_three_outside d1 d2 d3).2 then
    [⟨"三日形态", "看跌三外形态", 3, false⟩] else []) ++
  (if is_three_mountains d1 d2 d3 then
    [⟨"三日形态", "三山形态", 4, false⟩] else []) ++
  (if is_three_rivers d1 d2 d3 then
    [⟨"三日形态", "三川形态", 4, true⟩] else []) ++
  (if is_three_stars d1 d2 d3 then
    [⟨"三日形态", "三星形态", 3, true⟩] else []) ++
  (if is_island_reversal d1 d2 d3 true then
    [⟨"三日形态", "看涨岛型反转", 5, true⟩] else []) ++
  (if is_island_reversal d1 d2 d3 false then
    [⟨"三日形态", "看跌岛型反转", 5, false⟩] else [])

/-- The four-day candidate list (lines 367–385). -/
def four_day_patterns (d1 d2 d3 d4 : Bar) : List PatternMatch :=
  (if (is_three_line_strike d1 d2 d3 d4).1 then
    [⟨"四日形态", "看涨三线打击形态", 4, true⟩] else []) ++
  (if (is_three_line_strike d1 d2 d3 d4).2 then
    [⟨"四日形态", "看跌三线打击形态", 4, false⟩] else [])

/-- The five-day candidate list (lines 405–422). -/
def five_day_patterns (d1 d2 d3 d4 d5 : Bar) : List PatternMatch :=
  (if is_rising_three_methods d1 d2 d3 d4 d5 then
    [⟨"五日形态", "上升三法形态", 5, true⟩] else []) ++
  (if is_falling_three_methods d1 d2 d3 d4 d5 then
    [⟨"五日形态", "下降三法形态", 5, false⟩] else [])

/-- The single-day matches of the latest bar, in source order (lines 80–116),
each with the bullish and bearish counter increment it performs: the doji,
long-legged doji and spinning top adjust neither counter. -/
def one_day_matches (open_price close_price high low : ℚ) : List (String × ℕ × ℕ) :=
  (if is_doji open_price close_price high low then [("十字星", 0, 0)] else []) ++
  (if is_long_legged_doji open_price close_price high low then
    [("长腿十字星", 0, 0)] else []) ++
  (if is_gravestone_doji open_price close_price high low then
    [("墓碑十字星", 0, 1)] else []) ++
  (if is_spinning_top open_price close_price high low then
    [("纺锤线", 0, 0)] else []) ++
  (if is_hammer open_price close_price high low then [("锤子线", 1, 0)] else []) ++
  (if is_inverted_hammer open_price close_price high low then
    [("倒锤子线", 1, 0)] else []) ++
  (if is_hanging_man open_price close_price high low then
    [("吊颈线", 0, 1)] else []) ++
  (if is_shooting_star open_price close_price high low then
    [("流星线", 0, 1)] else [])

/-! ## Star conversion and the analysis result -/

/-- `convert_to_stars` (lines 770–791): clamp to [0,5]; `int(strength)` filled
stars; one further filled star when the fractional part is ≥ 0.5. -/
def convert_to_stars (strength : ℚ) : String :=
  let s := max 0 (min 5 strength)
  let full_stars := (⌊s⌋).toNat
  let empty_stars := 5 - full_stars
  if (1/2 : ℚ) ≤ s - (⌊s⌋ : ℚ) then
    String.mk (List.replicate full_stars '★' ++ '★' :: List.replicate (empty_stars - 1) '☆')
  else
    String.mk (List.replicate full_stars '★' ++ List.replicate empty_stars '☆')

/-- A star string with `k` filled stars out of five. -/
def starString (k : ℕ) : String :=
  String.mk (List.replicate k '★' ++ List.replicate (5 - k) '☆')

/-- The result dict of `analyze_candlestick_patterns` in the success case:
pattern list, star string, suggestion. -/
structure CandleResult where
  patterns : List (String × String)
  strength : String
  suggestion : String
deriving DecidableEq, Inhabited

/-- The retained pattern of a multi-day group as result entries. -/
def optEntry : Option PatternMatch → List (String × String)
  | some p => [(p.ptype, p.pattern)]
  | none => []

/-- Group weight contributed when a pattern of the group was retained. -/
def optWeight : Option PatternMatch → ℕ → ℕ
  | some _, k => k
  | none, _ => 0

/-- Bullish counter increment of a retained multi-day pattern. -/
def bullInc : Option PatternMatch → ℕ → ℕ
  | some p, k => if p.is_bullish then k else 0
  | none, _ => 0

/-- Bearish counter increment of a retained multi-day pattern. -/
def bearInc : Option PatternMatch → ℕ → ℕ
  | some p, k => if p.is_bullish then 0 else k
  | none, _ => 0

/-- The full pattern list of the result, on the five most recent bars
`b1 … b5` (chronological): all single-day matches of `b5`, then at most one
retained pattern per multi-day group. -/
def patternsOf (b1 b2 b3 b4 b5 : Bar) : List (String × String) :=
  (one_day_matches b5.op b5.cl b5.hi b5.lo).map (fun p => ("今日形态", p.1)) ++
  optEntry (selectTopPattern (two_day_patterns b4 b5)) ++
  optEntry (selectTopPattern (three_day_patterns b3 b4 b5)) ++
  optEntry (selectTopPattern (four_day_patterns b2 b3 b4 b5)) ++
  optEntry (selectTopPattern (five_day_patterns b1 b2 b3 b4 b5))

/-- `total_weight`: 1 per single-day match, the group size per retained
multi-day pattern. -/
def totalWeightOf (b1 b2 b3 b4 b5 : Bar) : ℕ :=
  (one_day_matches b5.op b5.cl b5.hi b5.lo).length +
  optWeight (selectTopPattern (two_day_patterns b4 b5)) 2 +
  optWeight (selectTopPattern (three_day_patterns b3 b4 b5)) 3 +
  optWeight (selectTopPattern (four_day_patterns b2 b3 b4 b5)) 4 +
  optWeight (selectTopPattern (five_day_patterns b1 b2 b3 b4 b5)) 5

/-- `bullish_count`: the single-day increments plus the group size of each
retained bullish multi-day pattern. -/
def bullCountOf (b1 b2 b3 b4 b5 : Bar) : ℕ :=
  ((one_day_matches b5.op b5.cl b5.hi b5.lo).map (fun p => p.2.1)).sum +
  bullInc (selectTopPattern (two_day_patterns b4 b5)) 2 +
  bullInc (selectTopPattern (three_day_patterns b3 b4 b5)) 3 +
  bullInc (selectTopPattern (four_day_patterns b2 b3 b4 b5)) 4 +
  bullInc (selectTopPattern (five_day_patterns b1 b2 b3 b4 b5)) 5

/-- `bearish_count`. -/
def bearCountOf (b1 b2 b3 b4 b5 : Bar) : ℕ :=
  ((one_day_matches b5.op b5.cl b5.hi b5.lo).map (fun p => p.2.2)).sum +
  bearInc (selectTopPattern (two_day_patterns b4 b5)) 2 +
  bearInc (selectTopPattern (three_day_patterns b3 b4 b5)) 3 +
  bearInc (selectTopPattern (four_day_patterns b2 b3 b4 b5)) 4 +
  bearInc (selectTopPattern (five_day_patterns b1 b2 b3 b4 b5)) 5

/-- `strength = min(5, total_weight / len(patterns))` (line 444). -/
def strengthOf (b1 b2 b3 b4 b5 : Bar) : ℚ :=
  min 5 ((totalWeightOf b1 b2 b3 b4 b5 : ℚ) / ((patternsOf b1 b2 b3 b4 b5).length : ℚ))

/-- The body of `analyze_candlestick_patterns` on the five most recent bars
(lines 53–464): patterns, star string and suggestion. -/
def analyze5 (b1 b2 b3 b4 b5 : Bar) : CandleResult :=
  let pats := patternsOf b1 b2 b3 b4 b5
  if 0 < pats.length then
    let strength := strengthOf b1 b2 b3 b4 b5
    { patterns := pats
      strength := convert_to_stars strength
      suggestion :=
        if bearCountOf b1 b2 b3 b4 b5 < bullCountOf b1 b2 b3 b4 b5 then
          if 4 ≤ strength then "强烈看涨信号" else "看涨信号"
        else if bullCountOf b1 b2 b3 b4 b5 < bearCountOf b1 b2 b3 b4 b5 then
          if 4 ≤ strength then "强烈看跌信号" else "看跌信号"
        else "市场震荡" }
  else
    { patterns := pats, strength := "☆☆☆☆☆", suggestion := "无明显信号" }

/-- `analyze_candlestick_patterns` on a chronological list of bars: error for
fewer than five bars, otherwise `analyze5` on `df.tail(5)`. -/
def analyze_candlestick_patterns (df : List Bar) : Except String CandleResult :=
  if df.length < 5 then Except.error "数据不足，需要至少5天的数据"
  else
    let recent := df.drop (df.length - 5)
    Except.ok (analyze5 (recent.getD 0 default) (recent.getD 1 default)
      (recent.getD 2 default) (recent.getD 3 default) (recent.getD 4 default))

/-! ## Least-squares trend slope (`np.polyfit(x, series, 1)[0]` with
`x = arange(len(series))`), shared by every analyzer module. -/

/-- Numerator of the ordinary least-squares slope over the zero-based index:
`n·Σ i·f(i) − (Σ i)·(Σ f(i))`. -/
def lsNum (n : ℕ) (f : ℕ → ℚ) : ℚ :=
  (n : ℚ) * (∑ i ∈ Finset.range n, (i : ℚ) * f i) -
    (∑ i ∈ Finset.range n, (i : ℚ)) * (∑ i ∈ Finset.range n, f i)

/-- Denominator of the least-squares slope: `n·Σ i² − (Σ i)²`. -/
def lsDen (n : ℕ) : ℚ :=
  (n : ℚ) * (∑ i ∈ Finset.range n, (i : ℚ) ^ 2) - (∑ i ∈ Finset.range n, (i : ℚ)) ^ 2

/-- `_calculate_trend_slope`: the least-squares slope of a series over its
zero-based index.  (For a series of length ≤ 1 the fit is degenerate; the
minimum-norm solution has slope 0, matching division by zero in `ℚ`.) -/
def calculate_trend_slope (series : List ℚ) : ℚ :=
  lsNum series.length (fun i => series.getD i 0) / lsDen series.length

/-- `_calculate_trend_direction` is textually the same function as
`_calculate_trend_slope` in every analyzer module. -/
def calculate_trend_direction (series : List ℚ) : ℚ :=
  calculate_trend_slope series

/-- `pandas.Series.max()` of a nonempty column. -/
def listMax (l : List ℚ) : ℚ := l.foldl max (l.headD 0)

/-- `pandas.Series.min()` of a nonempty column. -/
def listMin (l : List ℚ) : ℚ := l.foldl min (l.headD 0)

/-- `rsi_analyzer._analyze_medium_term_trend`, as a function of the `rsi_6`
column of its window (the only column it reads). -/
def rsi_analyze_medium_term_trend (rsi6 : List ℚ) : String :=
  let slope := calculate_trend_slope rsi6
  let rsi_range := listMax rsi6 - listMin rsi6
  if |slope| < 1/10 then
    if rsi_range < 10 then "窄幅震荡" else "宽幅震荡"
  else if slope > 0 then
    if slope > 3/10 then "快速上升" else "缓慢上升"
  else
    if slope < -(3/10) then "快速下降" else "缓慢下降"

/-! ## float64 values with non-finite results

The analyzers divide by quantities that can be zero (a flat band width, the
standard deviation of a constant window) and read centred rolling windows
that are NaN near the series edge.  numpy float64 arithmetic turns these
into NaN/±inf without raising; every comparison involving NaN is false.
`PyFloat` models exactly this. -/

inductive PyFloat
  | val (q : ℚ)
  | pinf
  | ninf
  | nan
deriving DecidableEq, Inhabited

/-- float64 addition. -/
def pyAdd : PyFloat → PyFloat → PyFloat
  | .val a, .val b => .val (a + b)
  | .nan, _ => .nan
  | _, .nan => .nan
  | .pinf, .ninf => .nan
  | .ninf, .pinf => .nan
  | .pinf, _ => .pinf
  | _, .pinf => .pinf
  | .ninf, _ => .ninf
  | _, .ninf => .ninf

/-- float64 negation. -/
def pyNeg : PyFloat → PyFloat
  | .val a => .val (-a)
  | .pinf => .ninf
  | .ninf => .pinf
  | .nan => .nan

/-- float64 subtraction. -/
def pySub (a b : PyFloat) : PyFloat := pyAdd a (pyNeg b)

/-- float64 multiplication. -/
def pyMul : PyFloat → PyFloat → PyFloat
  | .val a, .val b => .val (a * b)
  | .nan, _ => .nan
  | _, .nan => .nan
  | .pinf, .val b => if 0 < b then .pinf else if b < 0 then .ninf else .nan
  | .val a, .pinf => if 0 < a then .pinf else if a < 0 then .ninf else .nan
  | .ninf, .val b => if 0 < b then .ninf else if b < 0 then .pinf else .nan
  | .val a, .ninf => if 0 < a then .ninf else if a < 0 then .pinf else .nan
  | .pinf, .pinf => .pinf
  | .ninf, .ninf => .pinf
  | .pinf, .ninf => .ninf
  | .ninf, .pinf => .ninf

/-- numpy float64 division of finite values: `x/0` is ±inf for `x ≠ 0` and
NaN for `0/0` (no exception is raised). -/
def pyDiv (a b : ℚ) : PyFloat :=
  if b = 0 then (if 0 < a then .pinf else if a < 0 then .ninf else .nan)
  else .val (a / b)

/-- float64 division of general values. -/
def pyDivF : PyFloat → PyFloat → PyFloat
  | .val a, .val b => pyDiv a b
  | .nan, _ => .nan
  | _, .nan => .nan
  | .pinf, .val b => if b < 0 then .ninf else .pinf
  | .ninf, .val b => if b < 0 then .pinf else .ninf
  | .val _, .pinf => .val 0
  | .val _, .ninf => .val 0
  | .pinf, .pinf => .nan
  | .pinf, .ninf => .nan
  | .ninf, .pinf => .nan
  | .ninf, .ninf => .nan

/-- float64 absolute value. -/
def pyAbs : PyFloat → PyFloat
  | .val a => .val |a|
  | .pinf => .pinf
  | .ninf => .pinf
  | .nan => .nan

/-- float64 `<` (false whenever NaN is involved). -/
def pyLt : PyFloat → PyFloat → Bool
  | .val a, .val b => decide (a < b)
  | .nan, _ => false
  | _, .nan => false
  | .ninf, .ninf => false
  | .pinf, .pinf => false
  | .ninf, _ => true
  | _, .pinf => true
  | .pinf, _ => false
  | _, .ninf => false

/-- float64 `>`. -/
def pyGt (a b : PyFloat) : Bool := pyLt b a

/-- `pandas.Series.mean()` of a float column with the default `skipna=True`:
NaN entries are dropped; the mean of nothing is NaN. -/
def pyMean (l : List PyFloat) : PyFloat :=
  let v := l.filter (fun x => x ≠ PyFloat.nan)
  if v.length = 0 then .nan
  else pyDivF (v.foldl pyAdd (.val 0)) (.val (v.length : ℚ))

/-- `pandas.Series.mean()` of a NaN-free `ℚ` column (NaN when empty). -/
def meanQF (l : List ℚ) : PyFloat :=
  if l.length = 0 then .nan else .val (l.sum / (l.length : ℚ))

/-- Sample variance (`ddof=1`, as `pandas.Series.std()` squares to): NaN for
fewer than two observations. -/
def sampleVarQ (l : List ℚ) : PyFloat :=
  if l.length ≤ 1 then .nan
  else .val ((l.map (fun x => (x - l.sum / (l.length : ℚ)) ^ 2)).sum / ((l.length : ℚ) - 1))

/-- `s` is `pandas.Series.std()` of the column whose sample variance is `v`:
NaN for short columns, otherwise the nonnegative square root.  (A rational
square root exists exactly when the variance is a perfect square; all
windows considered by the theorems below have variance 0.) -/
def isStdOf (s v : PyFloat) : Prop :=
  match v, s with
  | .nan, .nan => True
  | .val q, .val r => 0 ≤ r ∧ r * r = q
  | _, _ => False

/-- `np.polyfit` slope of a possibly non-finite series: the rational
least-squares slope when every entry is finite, NaN otherwise. -/
def pyTrendSlope (l : List PyFloat) : PyFloat :=
  if l.all (fun x => match x with | .val _ => true | _ => false) then
    .val (calculate_trend_slope (l.map (fun x => match x with | .val q => q | _ => 0)))
  else .nan

/-- `pandas.Series.is_monotonic_increasing` (non-strict) of a `ℚ` column. -/
def isMonoIncQ : List ℚ → Bool
  | [] => true
  | [_] => true
  | a :: b :: l => decide (a ≤ b) && isMonoIncQ (b :: l)

/-- `pandas.Series.is_monotonic_decreasing` of a `ℚ` column. -/
def isMonoDecQ : List ℚ → Bool
  | [] => true
  | [_] => true
  | a :: b :: l => decide (b ≤ a) && isMonoDecQ (b :: l)

/-- `is_monotonic_increasing` of a float column: false as soon as a
non-finite value appears (NaN comparisons are false; an inf column is not
produced by the analyzers under study together with monotonicity reads). -/
def isMonoIncF (l : List PyFloat) : Bool :=
  l.all (fun x => match x with | .val _ => true | _ => false) &&
    isMonoIncQ (l.map (fun x => match x with | .val q => q | _ => 0))

/-- `is_monotonic_decreasing` of a float column. -/
def isMonoDecF (l : List PyFloat) : Bool :=
  l.all (fun x => match x with | .val _ => true | _ => false) &&
    isMonoDecQ (l.map (fun x => match x with | .val q => q | _ => 0))

/-! ## Positional indexing helpers -/

/-- `df.iloc[-k]`: the `k`-th element from the end; raising
(`Except.error`) when the frame is shorter than `k`. -/
def ilocNeg {α : Type} [Inhabited α] (l : List α) (k : ℕ) : Except String α :=
  if 1 ≤ k ∧ k ≤ l.length then Except.ok (l.getD (l.length - k) default)
  else Except.error "single positional indexer is out-of-bounds"

/-- `df.tail(n)`: the suffix of length at most `n`. -/
def tailN {α : Type} (l : List α) (n : ℕ) : List α := l.drop (l.length - n)

/-! ## MA-system crossover (`ma_system_analyzer._analyze_ma_crossover`) -/

/-- One row of the moving-average columns the crossover check reads. -/
structure MARow where
  ma5 : ℚ
  ma10 : ℚ
  ma20 : ℚ
  ma30 : ℚ
deriving DecidableEq, Inhabited

/-- One appended crossover signal dict. -/
structure CrossSignal where
  ctype : String
  short_ma : String
  long_ma : String
  strength : String
  value : ℚ
  diff : ℚ
deriving DecidableEq, Inhabited

/-- The loop body for one `(short_ma, long_ma)` pair: a golden cross needs
`today_diff > 0` and `yesterday_diff < 0` (strict), a death cross the mirror,
otherwise nothing is appended. -/
def pairCrossSignals (short_name long_name : String)
    (today_s today_l prev_s prev_l : ℚ) : List CrossSignal :=
  let today_diff := today_s - today_l
  let yesterday_diff := prev_s - prev_l
  if today_diff > 0 ∧ yesterday_diff < 0 then
    [⟨"golden_cross", short_name, long_name,
      if |today_diff| > |yesterday_diff| * (3/2) then "强势" else "普通",
      today_s, today_diff⟩]
  else if today_diff < 0 ∧ yesterday_diff > 0 then
    [⟨"death_cross", short_name, long_name,
      if |today_diff| > |yesterday_diff| * (3/2) then "强势" else "普通",
      today_s, today_diff⟩]
  else []

/-- `_analyze_ma_crossover`: the four MA pair checks on the last two rows. -/
def analyze_ma_crossover (data : List MARow) : Except String (List CrossSignal) := do
  let latest ← ilocNeg data 1
  let prev ← ilocNeg data 2
  return pairCrossSignals "ma_qfq_5" "ma_qfq_10" latest.ma5 latest.ma10 prev.ma5 prev.ma10 ++
    pairCrossSignals "ma_qfq_5" "ma_qfq_20" latest.ma5 latest.ma20 prev.ma5 prev.ma20 ++
    pairCrossSignals "ma_qfq_10" "ma_qfq_20" latest.ma10 latest.ma20 prev.ma10 prev.ma20 ++
    pairCrossSignals "ma_qfq_20" "ma_qfq_30" latest.ma20 latest.ma30 prev.ma20 prev.ma30

/-! ## KDJ analyzer (`kdj_analyzer.py`) -/

/-- One row of the columns the KDJ analyzer reads. -/
structure KdjRow where
  close : ℚ
  kdj_k : ℚ
  kdj_d : ℚ
  kdj_j : ℚ
deriving DecidableEq, Inhabited

/-- `series.rolling(window=5, center=True).max()`: entry `i` is the maximum
of `s[i-2..i+2]` when that centred window lies inside the series, NaN
(`none`) otherwise — in particular the last two entries are always NaN. -/
def rollingCenterMax (s : List ℚ) : List (Option ℚ) :=
  (List.range s.length).map fun i =>
    if 2 ≤ i ∧ i + 2 < s.length then
      some (((s.drop (i - 2)).take 5).foldl max (s.getD (i - 2) 0))
    else none

/-- `series.rolling(window=5, center=True).min()`. -/
def rollingCenterMin (s : List ℚ) : List (Option ℚ) :=
  (List.range s.length).map fun i =>
    if 2 ≤ i ∧ i + 2 < s.length then
      some (((s.drop (i - 2)).take 5).foldl min (s.getD (i - 2) 0))
    else none

/-- `.iloc[-k]` on a float series whose entries may be NaN; out-of-bounds is
collapsed to NaN here (the claims only exercise series of length ≥ 5). -/
def ilocO (l : List (Option ℚ)) (k : ℕ) : Option ℚ :=
  if 1 ≤ k ∧ k ≤ l.length then l.getD (l.length - k) none else none

/-- float `>` on possibly-NaN values: false whenever either side is NaN. -/
def nanGtO : Option ℚ → Option ℚ → Bool
  | some a, some b => decide (a > b)
  | _, _ => false

/-- float `<` on possibly-NaN values. -/
def nanLtO : Option ℚ → Option ℚ → Bool
  | some a, some b => decide (a < b)
  | _, _ => false

/-- `kdj_analyzer._analyze_divergence` (lines 128–149): compares the centred
rolling extrema of close and K at positions `-1` and `-5`. -/
def kdj_analyze_divergence (data : List KdjRow) : String :=
  let price_highs := rollingCenterMax (data.map (·.close))
  let price_lows := rollingCenterMin (data.map (·.close))
  let kdj_highs := rollingCenterMax (data.map (·.kdj_k))
  let kdj_lows := rollingCenterMin (data.map (·.kdj_k))
  if nanGtO (ilocO price_highs 1) (ilocO price_highs 5) &&
     nanLtO (ilocO kdj_highs 1) (ilocO kdj_highs 5) then "顶背离"
  else if nanLtO (ilocO price_lows 1) (ilocO price_lows 5) &&
     nanGtO (ilocO kdj_lows 1) (ilocO kdj_lows 5) then "底背离"
  else "无背离"

/-- `kdj_analyzer._analyze_strength` (lines 151–176).  The three standard
deviations are irrational in general, so they are passed as arguments; the
theorems characterise them through `isStdOf` against the sample variance of
the corresponding column. -/
def kdj_analyze_strength (data : List KdjRow)
    (k_std d_std j_std : PyFloat) : Except String String := do
  let latest ← ilocNeg data 1
  let k_dev := pyDivF (pyAbs (pySub (.val latest.kdj_k) (meanQF (data.map (·.kdj_k))))) k_std
  let d_dev := pyDivF (pyAbs (pySub (.val latest.kdj_d) (meanQF (data.map (·.kdj_d))))) d_std
  let j_dev := pyDivF (pyAbs (pySub (.val latest.kdj_j) (meanQF (data.map (·.kdj_j))))) j_std
  let avg_dev := pyDivF (pyAdd (pyAdd k_dev d_dev) j_dev) (.val 3)
  if pyGt avg_dev (.val 2) then return "极强"
  else if pyGt avg_dev (.val (3/2)) then return "较强"
  else if pyGt avg_dev (.val 1) then return "中等"
  else return "较弱"

/-! ## BOLL analyzer (`boll_analyzer.py`) -/

/-- One row of the columns the BOLL analyzer reads. -/
structure BollRow where
  close : ℚ
  boll_upper : ℚ
  boll_mid : ℚ
  boll_lower : ℚ
deriving DecidableEq, Inhabited

/-- `boll_analyzer._analyze_boll_pattern` (lines 180–204): price position
inside the band and the trend of the bandwidth series. -/
def boll_analyze_pattern (data : List BollRow) : Except String String := do
  let latest ← ilocNeg data 1
  let position := pyDiv (latest.close - latest.boll_lower) (latest.boll_upper - latest.boll_lower)
  let bandwidths := data.map fun r =>
    pyMul (pyDiv (r.boll_upper - r.boll_lower) r.boll_mid) (.val 100)
  let bandwidth_trend := pyTrendSlope bandwidths
  if pyGt position (.val (8/10)) && pyGt bandwidth_trend (.val 0) then return "上轨扩张"
  else if pyLt position (.val (2/10)) && pyGt bandwidth_trend (.val 0) then return "下轨扩张"
  else if pyGt position (.val (8/10)) && pyLt bandwidth_trend (.val 0) then return "上轨收敛"
  else if pyLt position (.val (2/10)) && pyLt bandwidth_trend (.val 0) then return "下轨收敛"
  else if pyLt (pyAbs (pySub position (.val (1/2)))) (.val (1/10)) then return "中轨平衡"
  else return "常态运行"

/-- `boll_analyzer._analyze_long_term_trend` (lines 76–103): middle-band
trend and the mean position of the price inside the band. -/
def boll_analyze_long_term_trend (data : List BollRow) : String :=
  let mid_trend := calculate_trend_direction (data.map (·.boll_mid))
  let position_ratios := data.map fun r =>
    pyDiv (r.close - r.boll_lower) (r.boll_upper - r.boll_lower)
  let avg_position := pyMean position_ratios
  if mid_trend > 0 then
    if pyGt avg_position (.val (7/10)) then "强势上涨（40天）" else "上涨趋势（40天）"
  else if mid_trend < 0 then
    if pyLt avg_position (.val (3/10)) then "强势下跌（40天）" else "下跌趋势（40天）"
  else
    if pyGt avg_position (.val (6/10)) then "高位震荡（40天）"
    else if pyLt avg_position (.val (4/10)) then "低位震荡（40天）"
    else "中位震荡（40天）"

/-! ## The aggregator (`technical_indicators.py`) -/

/-- One row of the full indicator table consumed by `analyze_indicators`. -/
structure AggRow where
  close : ℚ
  macd_dif : ℚ
  macd_dea : ℚ
  macd : ℚ
  kdj_k : ℚ
  kdj_d : ℚ
  kdj_j : ℚ
  rsi_6 : ℚ
  rsi_12 : ℚ
  rsi_24 : ℚ
  boll_upper : ℚ
  boll_mid : ℚ
  boll_lower : ℚ
deriving DecidableEq, Inhabited

/-- `_find_local_extremes`: the interior points that strictly exceed (or are
below) both neighbours.  The source indexes `series[i]`; on the default
`0..n-1` row labels this coincides with positional access. -/
def find_local_extremes (s : List ℚ) (is_high : Bool) : List ℚ :=
  ((List.range s.length).filter fun i =>
    decide (1 ≤ i) && decide (i + 1 < s.length) &&
    (if is_high then
      decide (s.getD i 0 > s.getD (i - 1) 0 ∧ s.getD i 0 > s.getD (i + 1) 0)
     else
      decide (s.getD i 0 < s.getD (i - 1) 0 ∧ s.getD i 0 < s.getD (i + 1) 0))).map
    fun i => s.getD i 0

/-- Substring test (`"上涨" in long_term`). -/
def containsSub (hay needle : String) : Bool :=
  (List.range (hay.toList.length + 1)).any fun i => needle.toList.isPrefixOf (hay.toList.drop i)

/-- `_analyze_macd_long_term_trend` (identical in `macd_analyzer.py`). -/
def ti_analyze_macd_long_term_trend (data : List AggRow) : String :=
  let dif_trend := calculate_trend_direction (data.map (·.macd_dif))
  let dea_trend := calculate_trend_direction (data.map (·.macd_dea))
  let macd_sum := (data.map (·.macd)).sum
  (if dif_trend > 0 ∧ dea_trend > 0 then
    if macd_sum > 0 then "强势上涨" else "上涨趋势转弱"
   else if dif_trend < 0 ∧ dea_trend < 0 then
    if macd_sum < 0 then "强势下跌" else "下跌趋势转弱"
   else "震荡整理") ++ "（40天）"

/-- `_analyze_macd_medium_term_trend`. -/
def ti_analyze_macd_medium_term_trend (data : List AggRow) : String :=
  let slope := calculate_trend_slope (data.map (·.macd))
  if |slope| < 1/10 then "横盘震荡"
  else if slope > 0 then if slope > 3/10 then "上升趋势" else "弱势上涨"
  else if slope < -(3/10) then "下降趋势" else "弱势下跌"

/-- `_analyze_macd_short_term_signal` (lines 143–166; textually identical to
`macd_analyzer._analyze_short_term_signal`, lines 99–122): the DIF/DEA
cross uses `<=`/`>=` on yesterday's values. -/
def ti_analyze_macd_short_term_signal (data : List AggRow) : Except String String := do
  let latest ← ilocNeg data 1
  let prev ← ilocNeg data 2
  if latest.macd_dif > latest.macd_dea ∧ prev.macd_dif ≤ prev.macd_dea then
    return "金叉信号"
  else if latest.macd_dif < latest.macd_dea ∧ prev.macd_dif ≥ prev.macd_dea then
    return "死叉信号"
  else if latest.macd > 0 ∧ latest.macd > prev.macd then return "红柱放大"
  else if latest.macd > 0 ∧ latest.macd < prev.macd then return "红柱缩小"
  else if latest.macd < 0 ∧ latest.macd < prev.macd then return "绿柱放大"
  else if latest.macd < 0 ∧ latest.macd > prev.macd then return "绿柱缩小"
  else return "无明显信号"

/-- `_analyze_macd_divergence`. -/
def ti_analyze_macd_divergence (data : List AggRow) : String :=
  let price_highs := find_local_extremes (data.map (·.close)) true
  let price_lows := find_local_extremes (data.map (·.close)) false
  let macd_highs := find_local_extremes (data.map (·.macd)) true
  let macd_lows := find_local_extremes (data.map (·.macd)) false
  if 2 ≤ price_highs.length ∧ 2 ≤ macd_highs.length ∧
     price_highs.getD (price_highs.length - 1) 0 > price_highs.getD (price_highs.length - 2) 0 ∧
     macd_highs.getD (macd_highs.length - 1) 0 < macd_highs.getD (macd_highs.length - 2) 0 then
    "顶背离"
  else if 2 ≤ price_lows.length ∧ 2 ≤ macd_lows.length ∧
     price_lows.getD (price_lows.length - 1) 0 < price_lows.getD (price_lows.length - 2) 0 ∧
     macd_lows.getD (macd_lows.length - 1) 0 > macd_lows.getD (macd_lows.length - 2) 0 then
    "底背离"
  else "无背离"

/-- `_analyze_macd_strength`; the standard deviation of the MACD histogram
is passed as an argument (see `isStdOf`). -/
def ti_analyze_macd_strength (data : List AggRow) (macd_std : PyFloat) :
    Except String String := do
  let latest ← ilocNeg data 1
  let current_strength := |latest.macd|
  if pyGt (.val current_strength) (pyMul (.val 2) macd_std) then
    return if latest.macd > 0 then "极强" else "极弱"
  else if pyGt (.val current_strength) macd_std then
    return if latest.macd > 0 then "较强" else "较弱"
  else return "普通"

/-- `_generate_macd_composite_signal`. -/
def ti_generate_macd_composite_signal
    (long_term medium_term short_term divergence strength : String) : String :=
  let parts1 := if divergence ≠ "无背离" then ["出现" ++ divergence] else []
  let parts2 :=
    if containsSub long_term "上涨" || containsSub medium_term "上升" then
      if containsSub short_term "金叉" || containsSub short_term "红柱" then ["多头趋势增强"]
      else if containsSub short_term "死叉" || containsSub short_term "绿柱" then ["多头趋势减弱"]
      else []
    else if containsSub long_term "下跌" || containsSub medium_term "下降" then
      if containsSub short_term "死叉" || containsSub short_term "绿柱" then ["空头趋势增强"]
      else if containsSub short_term "金叉" || containsSub short_term "红柱" then ["空头趋势减弱"]
      else []
    else ["震荡整理"]
  String.intercalate "，" (parts1 ++ parts2 ++ ["（" ++ strength ++ "）"])

/-- The six string fields produced by `_analyze_macd_comprehensive`. -/
structure MacdComp where
  long_term_trend : String
  medium_term_trend : String
  short_term_signal : String
  divergence : String
  strength : String
  signal : String
deriving DecidableEq, Inhabited

/-- `_analyze_macd_comprehensive` (lines 67–103): results are assembled in
source order, so the first failing step aborts the whole dict. -/
def analyze_macd_comprehensive (df long_term medium_term short_term : List AggRow)
    (macd_std : PyFloat) : Except String MacdComp := do
  let _unused := df
  let long_trend := ti_analyze_macd_long_term_trend long_term
  let medium_trend := ti_analyze_macd_medium_term_trend medium_term
  let short_signal ← ti_analyze_macd_short_term_signal short_term
  let divergence := ti_analyze_macd_divergence long_term
  let strength ← ti_analyze_macd_strength medium_term macd_std
  return ⟨long_trend, medium_trend, short_signal, divergence, strength,
    ti_generate_macd_composite_signal long_trend medium_trend short_signal divergence strength⟩

/-- `_analyze_kdj_trend` of the aggregator module (lines 278–306); the
standard deviation of the K column is passed as an argument. -/
def ti_analyze_kdj_trend (data : List AggRow) (k_std : PyFloat) : Except String String := do
  let latest ← ilocNeg data 1
  let k_mean := meanQF (data.map (·.kdj_k))
  if latest.kdj_j > 100 then
    return (if latest.kdj_j > 110 then "强烈" else "一般") ++ "超买"
  else if latest.kdj_j < 0 then
    return (if latest.kdj_j < -10 then "强烈" else "一般") ++ "超卖"
  else if pyGt (.val latest.kdj_k) (pyAdd k_mean k_std) then return "偏多"
  else if pyLt (.val latest.kdj_k) (pySub k_mean k_std) then return "偏空"
  else return "盘整"

/-- `_analyze_rsi_trend` (lines 308–334). -/
def ti_analyze_rsi_trend (data : List AggRow) : Except String String := do
  let latest ← ilocNeg data 1
  let rsi6_trend := tailN (data.map (·.rsi_6)) 5
  let trend :=
    if isMonoIncQ rsi6_trend then "上升"
    else if isMonoDecQ rsi6_trend then "下降" else "震荡"
  if latest.rsi_6 > 80 then return "超买（" ++ trend ++ "趋势）"
  else if latest.rsi_6 < 20 then return "超卖（" ++ trend ++ "趋势）"
  else if latest.rsi_6 > 60 then return "偏强（" ++ trend ++ "趋势）"
  else if latest.rsi_6 < 40 then return "偏弱（" ++ trend ++ "趋势）"
  else return "盘整（" ++ trend ++ "趋势）"

/-- `_analyze_boll_trend` (lines 336–361). -/
def ti_analyze_boll_trend (data : List AggRow) : Except String String := do
  let latest ← ilocNeg data 1
  let recent := tailN data 5
  let band_widths := recent.map fun r =>
    pyMul (pyDiv (r.boll_upper - r.boll_lower) r.boll_mid) (.val 100)
  let bandwidth_trend :=
    if isMonoIncF band_widths then "扩大"
    else if isMonoDecF band_widths then "收窄" else "平稳"
  if latest.close > latest.boll_upper then return "突破上轨（带宽" ++ bandwidth_trend ++ "）"
  else if latest.close < latest.boll_lower then return "突破下轨（带宽" ++ bandwidth_trend ++ "）"
  else if latest.close > latest.boll_mid then return "运行于上轨区间（带宽" ++ bandwidth_trend ++ "）"
  else return "运行于下轨区间（带宽" ++ bandwidth_trend ++ "）"

/-- The `analysis['MACD']` entry. -/
structure MacdAnalysis where
  dif : ℚ
  dea : ℚ
  macd : ℚ
  long_term_trend : String
  medium_term_trend : String
  short_term_signal : String
  divergence : String
  strength : String
  signal : String
deriving DecidableEq, Inhabited

/-- The `analysis['KDJ']` entry. -/
structure KdjAnalysis where
  k : ℚ
  d : ℚ
  j : ℚ
  signal : String
deriving DecidableEq, Inhabited

/-- The `analysis['RSI']` entry. -/
structure RsiAnalysis where
  rsi6 : ℚ
  rsi12 : ℚ
  rsi24 : ℚ
  signal : String
deriving DecidableEq, Inhabited

/-- The `analysis['BOLL']` entry. -/
structure BollAnalysis where
  upper : ℚ
  mid : ℚ
  lower : ℚ
  signal : String
deriving DecidableEq, Inhabited

/-- The aggregator's output map. -/
structure AggResult where
  macdA : MacdAnalysis
  kdjA : KdjAnalysis
  rsiA : RsiAnalysis
  bollA : BollAnalysis
deriving DecidableEq, Inhabited

/-- `analyze_indicators` (lines 9–65): the four family sections run in
sequence with no `try`/`except`; any exception aborts the whole call.  The
two standard deviations the families need are passed as arguments
(see `isStdOf`). -/
def analyze_indicators (df : List AggRow) (macd_std k_std : PyFloat) :
    Except String AggResult := do
  let long_term := tailN df 40
  let medium_term := tailN df 20
  let short_term := tailN df 10
  let latest ← ilocNeg df 1
  let macd_analysis ← analyze_macd_comprehensive df long_term medium_term short_term macd_std
  let kdj_signal ← ti_analyze_kdj_trend medium_term k_std
  let rsi_signal ← ti_analyze_rsi_trend medium_term
  let boll_signal ← ti_analyze_boll_trend medium_term
  return ⟨⟨latest.macd_dif, latest.macd_dea, latest.macd,
      macd_analysis.long_term_trend, macd_analysis.medium_term_trend,
      macd_analysis.short_term_signal, macd_analysis.divergence,
      macd_analysis.strength, macd_analysis.signal⟩,
    ⟨latest.kdj_k, latest.kdj_d, latest.kdj_j, kdj_signal⟩,
    ⟨latest.rsi_6, latest.rsi_12, latest.rsi_24, rsi_signal⟩,
    ⟨latest.boll_upper, latest.boll_mid, latest.boll_lower, boll_signal⟩⟩

/-! ## General lemmas about the candlestick pipeline -/

/-- Head of the stable descending sort = first-registered candidate of
maximal priority. -/
theorem selectTopPattern_eq_firstMaxPriority (l : List PatternMatch) :
    selectTopPattern l = firstMaxPriority l := by
  induction l with
  | nil => rfl
  | cons a l ih =>
    show (List.orderedInsert _ a (sortByPriorityDesc l)).head? = _
    cases h : sortByPriorityDesc l with
    | nil =>
      have hfm : firstMaxPriority l = none := by
        rw [← ih]; unfold selectTopPattern; rw [h]; rfl
      simp [List.orderedInsert, firstMaxPriority, hfm]
    | cons b t =>
      have hfm : firstMaxPriority l = some b := by
        rw [← ih]; unfold selectTopPattern; rw [h]; rfl
      simp only [List.orderedInsert, firstMaxPriority, hfm]
      by_cases hp : b.priority ≤ a.priority
      · simp [hp]
      · simp [hp]

/-- Claim C1 (amended): polarity-bearing retained matches add their
group-size weight to the bullish/bearish counters (neutral single-day
patterns add weight only to the total — see `one_day_matches`), and the
suggestion of `analyze_candlestick_patterns` (lines 441–462) is the strong
bullish/bearish variant exactly when the dominant counter exceeds the other
and the raw strength score `min(5, total_weight/len(patterns))` reaches 4
(not the star rating), the plain variant when dominant with score < 4, the
range-bound tie branch, and "no clear signal" with zero matches. -/
theorem analyze5_suggestion_iff (b1 b2 b3 b4 b5 : Bar) :
    ((analyze5 b1 b2 b3 b4 b5).suggestion = "强烈看涨信号" ↔
      0 < (patternsOf b1 b2 b3 b4 b5).length ∧
      bearCountOf b1 b2 b3 b4 b5 < bullCountOf b1 b2 b3 b4 b5 ∧
      4 ≤ strengthOf b1 b2 b3 b4 b5) ∧
    ((analyze5 b1 b2 b3 b4 b5).suggestion = "看涨信号" ↔
      0 < (patternsOf b1 b2 b3 b4 b5).length ∧
      bearCountOf b1 b2 b3 b4 b5 < bullCountOf b1 b2 b3 b4 b5 ∧
      strengthOf b1 b2 b3 b4 b5 < 4) ∧
    ((analyze5 b1 b2 b3 b4 b5).suggestion = "强烈看跌信号" ↔
      0 < (patternsOf b1 b2 b3 b4 b5).length ∧
      bullCountOf b1 b2 b3 b4 b5 < bearCountOf b1 b2 b3 b4 b5 ∧
      4 ≤ strengthOf b1 b2 b3 b4 b5) ∧
    ((analyze5 b1 b2 b3 b4 b5).suggestion = "看跌信号" ↔
      0 < (patternsOf b1 b2 b3 b4 b5).length ∧
      bullCountOf b1 b2 b3 b4 b5 < bearCountOf b1 b2 b3 b4 b5 ∧
      strengthOf b1 b2 b3 b4 b5 < 4) ∧
    ((analyze5 b1 b2 b3 b4 b5).suggestion = "市场震荡" ↔
      0 < (patternsOf b1 b2 b3 b4 b5).length ∧
      bullCountOf b1 b2 b3 b4 b5 = bearCountOf b1 b2 b3 b4 b5) ∧
    ((analyze5 b1 b2 b3 b4 b5).suggestion = "无明显信号" ↔
      (patternsOf b1 b2 b3 b4 b5).length = 0) := by
  unfold analyze5
  by_cases h0 : 0 < (patternsOf b1 b2 b3 b4 b5).length
  · rw [if_pos h0]
    by_cases hb : bearCountOf b1 b2 b3 b4 b5 < bullCountOf b1 b2 b3 b4 b5
    · by_cases hs : (4:ℚ) ≤ strengthOf b1 b2 b3 b4 b5
      · simp only [if_pos hb, if_pos hs]
        refine ⟨?_, ?_, ?_, ?_, ?_, ?_⟩ <;> simp [h0, hb, hs] <;>
          first
          | omega
          | (intro _; exact not_lt.2 hs)
          | (intro _ _; exact absurd hb (by omega))
          | exact List.length_pos.1 h0
      · simp only [if_pos hb, if_neg hs]
        refine ⟨?_, ?_, ?_, ?_, ?_, ?_⟩ <;> simp [h0, hb, not_le.1 hs] <;>
          first
          | omega
          | (intro _; exact hs)
          | (intro _ _; exact absurd hb (by omega))
          | exact List.length_pos.1 h0
    · by_cases hb2 : bullCountOf b1 b2 b3 b4 b5 < bearCountOf b1 b2 b3 b4 b5
      · by_cases hs : (4:ℚ) ≤ strengthOf b1 b2 b3 b4 b5
        · simp only [if_neg hb, if_pos hb2, if_pos hs]
          refine ⟨?_, ?_, ?_, ?_, ?_, ?_⟩ <;> simp [h0, hb2, hs] <;>
            first
            | omega
            | (intro _; exact not_lt.2 hs)
            | (intro _ _; exact absurd hb2 (by omega))
            | exact List.length_pos.1 h0
        · simp only [if_neg hb, if_pos hb2, if_neg hs]
          refine ⟨?_, ?_, ?_, ?_, ?_, ?_⟩ <;> simp [h0, hb2, not_le.1 hs] <;>
            first
            | omega
            | (intro _; exact hs)
            | (intro _ _; exact absurd hb2 (by omega))
            | exact List.length_pos.1 h0
      · simp only [if_neg hb, if_neg hb2]
        refine ⟨?_, ?_, ?_, ?_, ?_, ?_⟩ <;> simp [h0] <;> first | omega | exact List.length_pos.1 h0
  · rw [if_neg h0]
    refine ⟨?_, ?_, ?_, ?_, ?_, ?_⟩ <;> simp <;>
      first
      | omega
      | exact List.length_eq_zero.1 (by omega)
      | exact List.eq_nil_of_length_eq_zero (by omega)

/-! ## Lemmas about the least-squares slope -/

theorem lsNum_succ (n : ℕ) (f : ℕ → ℚ) :
    lsNum (n+1) f = lsNum n f + ∑ i ∈ Finset.range n, ((n:ℚ) - i) * (f n - f i) := by
  have h1 : ∀ i ∈ Finset.range n, ((n:ℚ) - i) * (f n - f i) =
      (n:ℚ) * f n - (n:ℚ) * f i - ((i:ℚ) * f n - (i:ℚ) * f i) := fun i _ => by ring
  have hexp : ∑ i ∈ Finset.range n, ((n:ℚ) - i) * (f n - f i)
      = (n:ℚ) * ((n:ℚ) * f n) - (n:ℚ) * (∑ i ∈ Finset.range n, f i)
        - ((∑ i ∈ Finset.range n, (i:ℚ)) * f n - ∑ i ∈ Finset.range n, (i:ℚ) * f i) := by
    rw [Finset.sum_congr rfl h1]
    simp only [Finset.sum_sub_distrib, Finset.sum_const, Finset.card_range, nsmul_eq_mul,
      ← Finset.mul_sum, ← Finset.sum_mul]
  rw [hexp]
  unfold lsNum
  simp only [Finset.sum_range_succ]
  push_cast
  ring

theorem lsNum_pos (n : ℕ) (hn : 2 ≤ n) :
    ∀ f : ℕ → ℚ, (∀ i j, i < j → j < n → f i < f j) → 0 < lsNum n f := by
  induction n, hn using Nat.le_induction with
  | base =>
    intro f hf
    have h01 := hf 0 1 (by norm_num) (by norm_num)
    simp only [lsNum, Finset.sum_range_succ, Finset.sum_range_zero]
    push_cast
    nlinarith
  | succ n hn ih =>
    intro f hf
    have hpos := ih f (fun i j hij hj => hf i j hij (by omega))
    rw [lsNum_succ]
    have hsum : 0 ≤ ∑ i ∈ Finset.range n, ((n:ℚ) - i) * (f n - f i) := by
      apply Finset.sum_nonneg
      intro i hi
      have hiltn : i < n := Finset.mem_range.1 hi
      have h1 : (0:ℚ) ≤ (n:ℚ) - i := by
        have : (i:ℚ) ≤ (n:ℚ) := by exact_mod_cast hiltn.le
        linarith
      have h2 : (0:ℚ) ≤ f n - f i := by
        have := hf i n hiltn (by omega)
        linarith
      exact mul_nonneg h1 h2
    linarith

theorem lsNum_neg_fun (n : ℕ) (f : ℕ → ℚ) :
    lsNum n (fun i => -f i) = -lsNum n f := by
  unfold lsNum
  simp only [mul_neg, Finset.sum_neg_distrib]
  ring

theorem lsNum_const (n : ℕ) (f : ℕ → ℚ) (c : ℚ) (hc : ∀ i, i < n → f i = c) :
    lsNum n f = 0 := by
  unfold lsNum
  have h1 : ∑ i ∈ Finset.range n, (i:ℚ) * f i = (∑ i ∈ Finset.range n, (i:ℚ)) * c := by
    rw [Finset.sum_mul]
    apply Finset.sum_congr rfl
    intro i hi
    rw [hc i (Finset.mem_range.1 hi)]
  have h2 : ∑ i ∈ Finset.range n, f i = (n:ℚ) * c := by
    rw [Finset.sum_congr rfl fun i hi => hc i (Finset.mem_range.1 hi)]
    simp [Finset.sum_const, Finset.card_range]
  rw [h1, h2]
  ring

theorem sum_range_cast_eq (n : ℕ) :
    ∑ i ∈ Finset.range n, (i:ℚ) = (n:ℚ) * ((n:ℚ) - 1) / 2 := by
  induction n with
  | zero => simp
  | succ n ih =>
    rw [Finset.sum_range_succ, ih]
    push_cast
    ring

theorem sum_range_sq_eq (n : ℕ) :
    ∑ i ∈ Finset.range n, (i:ℚ)^2 = (n:ℚ) * ((n:ℚ) - 1) * (2*(n:ℚ) - 1) / 6 := by
  induction n with
  | zero => simp
  | succ n ih =>
    rw [Finset.sum_range_succ, ih]
    push_cast
    ring

theorem lsDen_eq (n : ℕ) : lsDen n = (n:ℚ)^2 * ((n:ℚ)^2 - 1) / 12 := by
  unfold lsDen
  rw [sum_range_cast_eq, sum_range_sq_eq]
  ring

theorem lsDen_pos (n : ℕ) (hn : 2 ≤ n) : 0 < lsDen n := by
  rw [lsDen_eq]
  have h2 : (2:ℚ) ≤ (n:ℚ) := by exact_mod_cast hn
  have h4 : (4:ℚ) ≤ (n:ℚ)^2 := by nlinarith
  have h0 : (0:ℚ) < (n:ℚ)^2 * ((n:ℚ)^2 - 1) := by nlinarith
  linarith

theorem pairwise_lt_of_adjacent (n : ℕ) (f : ℕ → ℚ)
    (hadj : ∀ i, i + 1 < n → f i < f (i+1)) :
    ∀ i j, i < j → j < n → f i < f j := by
  intro i j
  induction j with
  | zero => omega
  | succ j ih =>
    intro hij hj
    rcases Nat.lt_succ_iff_lt_or_eq.1 hij with h | h
    · exact lt_trans (ih h (by omega)) (hadj j hj)
    · subst h
      exact hadj i hj

theorem slope_pos_of_strict_increase (l : List ℚ) (h2 : 2 ≤ l.length)
    (hadj : ∀ i, i + 1 < l.length → l.getD i 0 < l.getD (i+1) 0) :
    0 < calculate_trend_slope l := by
  unfold calculate_trend_slope
  exact div_pos (lsNum_pos _ h2 _ (pairwise_lt_of_adjacent _ _ hadj)) (lsDen_pos _ h2)

theorem slope_neg_of_strict_decrease (l : List ℚ) (h2 : 2 ≤ l.length)
    (hadj : ∀ i, i + 1 < l.length → l.getD (i+1) 0 < l.getD i 0) :
    calculate_trend_slope l < 0 := by
  unfold calculate_trend_slope
  have hnum : 0 < lsNum l.length (fun i => -(l.getD i 0)) := by
    apply lsNum_pos _ h2
    apply pairwise_lt_of_adjacent
    intro i hi
    have := hadj i hi
    simp only [neg_lt_neg_iff]
    exact this
  rw [lsNum_neg_fun] at hnum
  have hlt : lsNum l.length (fun i => l.getD i 0) < 0 := by linarith
  exact div_neg_of_neg_of_pos hlt (lsDen_pos _ h2)

theorem slope_zero_of_const (l : List ℚ) (c : ℚ)
    (hc : ∀ i, i < l.length → l.getD i 0 = c) :
    calculate_trend_slope l = 0 := by
  unfold calculate_trend_slope
  rw [lsNum_const _ _ c hc]
  simp

/-! ## Replicate helpers -/

theorem getD_replicate_of_lt (n i : ℕ) (c : ℚ) (h : i < n) :
    (List.replicate n c).getD i 0 = c := by
  rw [List.getD_eq_getElem?_getD, List.getElem?_replicate]
  simp [h]

theorem foldl_max_replicate (n : ℕ) (c : ℚ) : (List.replicate n c).foldl max c = c := by
  induction n with
  | zero => rfl
  | succ n ih => simp [List.replicate_succ, List.foldl_cons, max_self, ih]

theorem foldl_min_replicate (n : ℕ) (c : ℚ) : (List.replicate n c).foldl min c = c := by
  induction n with
  | zero => rfl
  | succ n ih => simp [List.replicate_succ, List.foldl_cons, min_self, ih]

theorem listMax_replicate (n : ℕ) (c : ℚ) (h : 1 ≤ n) :
    listMax (List.replicate n c) = c := by
  obtain ⟨m, rfl⟩ : ∃ m, n = m + 1 := ⟨n - 1, by omega⟩
  unfold listMax
  simp only [List.replicate_succ, List.headD_cons, List.foldl_cons, max_self]
  exact foldl_max_replicate m c

theorem listMin_replicate (n : ℕ) (c : ℚ) (h : 1 ≤ n) :
    listMin (List.replicate n c) = c := by
  obtain ⟨m, rfl⟩ : ∃ m, n = m + 1 := ⟨n - 1, by omega⟩
  unfold listMin
  simp only [List.replicate_succ, List.headD_cons, List.foldl_cons, min_self]
  exact foldl_min_replicate m c

/-- Claim C6 (amended): over the RSI medium-term trend classifier, a strictly
increasing window has positive least-squares slope and gets a "rising" label
whenever the slope reaches the 0.1 sideways threshold (mirror for strictly
decreasing windows), and a constant window has slope exactly 0 and is
labelled 窄幅震荡 (narrow sideways). -/
theorem rsi_trend_slope_and_labels :
    (∀ l : List ℚ, 2 ≤ l.length →
      (∀ i, i + 1 < l.length → l.getD i 0 < l.getD (i+1) 0) →
      0 < calculate_trend_slope l ∧
      (1/10 ≤ calculate_trend_slope l →
        rsi_analyze_medium_term_trend l = "快速上升" ∨
        rsi_analyze_medium_term_trend l = "缓慢上升")) ∧
    (∀ l : List ℚ, 2 ≤ l.length →
      (∀ i, i + 1 < l.length → l.getD (i+1) 0 < l.getD i 0) →
      calculate_trend_slope l < 0 ∧
      (calculate_trend_slope l ≤ -(1/10) →
        rsi_analyze_medium_term_trend l = "快速下降" ∨
        rsi_analyze_medium_term_trend l = "缓慢下降")) ∧
    (∀ (n : ℕ) (c : ℚ), 2 ≤ n →
      calculate_trend_slope (List.replicate n c) = 0 ∧
      rsi_analyze_medium_term_trend (List.replicate n c) = "窄幅震荡") := by
  refine ⟨?_, ?_, ?_⟩
  · intro l h2 hadj
    have hpos := slope_pos_of_strict_increase l h2 hadj
    refine ⟨hpos, ?_⟩
    intro hge
    unfold rsi_analyze_medium_term_trend
    rw [if_neg (by rw [abs_of_pos hpos]; linarith), if_pos hpos]
    by_cases h3 : calculate_trend_slope l > 3/10
    · exact Or.inl (by rw [if_pos h3])
    · exact Or.inr (by rw [if_neg h3])
  · intro l h2 hadj
    have hneg := slope_neg_of_strict_decrease l h2 hadj
    refine ⟨hneg, ?_⟩
    intro hle
    unfold rsi_analyze_medium_term_trend
    rw [if_neg (by rw [abs_of_neg hneg]; linarith), if_neg (by linarith)]
    by_cases h3 : calculate_trend_slope l < -(3/10)
    · exact Or.inl (by rw [if_pos h3])
    · exact Or.inr (by rw [if_neg h3])
  · intro n c h2
    have hz : calculate_trend_slope (List.replicate n c) = 0 := by
      apply slope_zero_of_const _ c
      intro i hi
      exact getD_replicate_of_lt n i c (by simpa using hi)
    refine ⟨hz, ?_⟩
    unfold rsi_analyze_medium_term_trend
    rw [hz]
    rw [if_pos (by norm_num)]
    rw [listMax_replicate n c (by omega), listMin_replicate n c (by omega)]
    rw [if_pos (by norm_num)]

unseal Rat.sub Rat.add Rat.mul Rat.inv Rat.ofScientific in
/-- Witness for claim C6: the amended theorem applied to the concrete
windows `[0,20,40]` (strictly increasing), `[40,20,0]` (strictly
decreasing) and the constant window `replicate 5 7`. -/
theorem rsi_trend_slope_and_labels_witness :
    (0 < calculate_trend_slope [0, 20, 40] ∧
      (rsi_analyze_medium_term_trend [0, 20, 40] = "快速上升" ∨
        rsi_analyze_medium_term_trend [0, 20, 40] = "缓慢上升")) ∧
    (calculate_trend_slope [40, 20, 0] < 0 ∧
      (rsi_analyze_medium_term_trend [40, 20, 0] = "快速下降" ∨
        rsi_analyze_medium_term_trend [40, 20, 0] = "缓慢下降")) ∧
    (calculate_trend_slope (List.replicate 5 (7:ℚ)) = 0 ∧
      rsi_analyze_medium_term_trend (List.replicate 5 (7:ℚ)) = "窄幅震荡") := by
  obtain ⟨ha, hd, hc⟩ := rsi_trend_slope_and_labels
  have h1 := ha [0, 20, 40] (by norm_num)
    (by
      intro i hi
      simp only [List.length_cons, List.length_nil] at hi
      have : i < 2 := by omega
      interval_cases i <;> decide)
  have h2 := hd [40, 20, 0] (by norm_num)
    (by
      intro i hi
      simp only [List.length_cons, List.length_nil] at hi
      have : i < 2 := by omega
      interval_cases i <;> decide)
  exact ⟨⟨h1.1, h1.2 (by decide)⟩, ⟨h2.1, h2.2 (by decide)⟩, hc 5 7 (by norm_num)⟩

unseal Rat.sub Rat.add Rat.mul Rat.inv Rat.ofScientific in
/-- Counterexample to claim C6 as stated: the window `[0, 0.01, 0.02]` is
strictly monotonically increasing and its least-squares slope is positive,
yet the medium-term label is 窄幅震荡 (narrow sideways), not a "rising"
variant, because the slope 0.01 is below the 0.1 threshold. -/
theorem rsi_sideways_counterexample :
    ((0:ℚ) < 1/100 ∧ (1/100:ℚ) < 2/100) ∧
    0 < calculate_trend_slope [0, 1/100, 2/100] ∧
    rsi_analyze_medium_term_trend [0, 1/100, 2/100] = "窄幅震荡" := by decide

/-- Claim C10: for every rational strength input, including values outside
[0,5], `convert_to_stars` yields a string of exactly five glyphs, each a
filled star or an empty star (the input is clamped to [0,5] first). -/
theorem convert_to_stars_wellformed (s : ℚ) :
    (convert_to_stars s).length = 5 ∧
    ((convert_to_stars s).toList.all fun ch => ch == '★' || ch == '☆') = true := by
  unfold convert_to_stars
  set t := max 0 (min 5 s) with ht
  have h0 : 0 ≤ t := le_max_left _ _
  have h5 : t ≤ 5 := max_le (by norm_num) (min_le_left _ _)
  have hfl0 : 0 ≤ ⌊t⌋ := Int.floor_nonneg.2 h0
  have hfl5 : ⌊t⌋ ≤ 5 := by
    have h := Int.floor_le_floor h5
    simpa using h
  have hk5 : (⌊t⌋).toNat ≤ 5 := by omega
  by_cases hfrac : (1/2:ℚ) ≤ t - ⌊t⌋
  · rw [if_pos hfrac]
    have hk4 : (⌊t⌋).toNat ≤ 4 := by
      by_contra hcon
      have hfl : ⌊t⌋ = 5 := by omega
      have hge : (⌊t⌋:ℚ) + 1/2 ≤ t := by linarith
      rw [hfl] at hge
      push_cast at hge
      linarith
    constructor
    · simp only [String.length, String.mk, List.length_append, List.length_replicate,
        List.length_cons]
      omega
    · rw [List.all_eq_true]
      intro x hx
      simp only [String.toList, String.mk] at hx
      rcases List.mem_append.1 hx with h | h
      · rw [List.eq_of_mem_replicate h]
        decide
      · rcases List.mem_cons.1 h with h | h
        · rw [h]; decide
        · rw [List.eq_of_mem_replicate h]; decide
  · rw [if_neg hfrac]
    constructor
    · simp only [String.length, String.mk, List.length_append, List.length_replicate]
      omega
    · rw [List.all_eq_true]
      intro x hx
      simp only [String.toList, String.mk] at hx
      rcases List.mem_append.1 hx with h | h
      · rw [List.eq_of_mem_replicate h]
        decide
      · rw [List.eq_of_mem_replicate h]
        decide

/-- Characterisation of `convert_to_stars` on the clamped range: the floor
of the score gives the filled stars, plus one more when the fractional part
reaches 1/2. -/
theorem convert_to_stars_spec (s : ℚ) (h0 : 0 ≤ s) (h5 : s ≤ 5) :
    convert_to_stars s =
      starString ((⌊s⌋).toNat + if (1/2:ℚ) ≤ s - (⌊s⌋:ℚ) then 1 else 0) := by
  have hmax : max 0 (min 5 s) = s := by
    rw [min_eq_right h5]
    exact max_eq_right h0
  unfold convert_to_stars
  rw [hmax]
  by_cases hfrac : (1/2:ℚ) ≤ s - (⌊s⌋:ℚ)
  · rw [if_pos hfrac, if_pos hfrac]
    unfold starString
    congr 1
    rw [List.replicate_succ', List.append_assoc, List.singleton_append, Nat.sub_sub]
  · rw [if_neg hfrac, if_neg hfrac]
    unfold starString
    congr 1

unseal Rat.sub Rat.add Rat.mul Rat.inv Rat.ofScientific in
/-- Claim C3: the candlestick strength score is
`min(5, total_weight / number_of_matches)`; the star conversion fills the
integer part and rounds a fractional part of at least 0.5 up to one more
filled star; and a score of 3.5 renders exactly as ★★★★☆. -/
theorem candlestick_strength_stars :
    (∀ b1 b2 b3 b4 b5 : Bar, 0 < (patternsOf b1 b2 b3 b4 b5).length →
      (analyze5 b1 b2 b3 b4 b5).strength =
        convert_to_stars (min 5 ((totalWeightOf b1 b2 b3 b4 b5 : ℚ) /
          ((patternsOf b1 b2 b3 b4 b5).length : ℚ)))) ∧
    (∀ s : ℚ, 0 ≤ s → s ≤ 5 →
      convert_to_stars s =
        starString ((⌊s⌋).toNat + if (1/2:ℚ) ≤ s - (⌊s⌋:ℚ) then 1 else 0)) ∧
    convert_to_stars (7/2) = "★★★★☆" := by
  refine ⟨?_, convert_to_stars_spec, by decide⟩
  intro b1 b2 b3 b4 b5 h
  unfold analyze5
  rw [if_pos h]
  rfl

unseal Rat.sub Rat.add Rat.mul Rat.inv Rat.ofScientific in
/-- Witness for claim C3: the scoring equation at a five-bar input with two
retained patterns (weights 3 and 4, score 3.5) and the star characterisation
at 3.5. -/
theorem candlestick_strength_stars_witness :
    ((analyze5 ⟨116, 115, 117, 1145/10⟩ ⟨114, 113, 115, 1125/10⟩
        ⟨113, 112, 114, 1115/10⟩ ⟨110, 1095/10, 1105/10, 1085/10⟩
        ⟨110, 116, 117, 1098/10⟩).strength =
      convert_to_stars (min 5
        ((totalWeightOf ⟨116, 115, 117, 1145/10⟩ ⟨114, 113, 115, 1125/10⟩
            ⟨113, 112, 114, 1115/10⟩ ⟨110, 1095/10, 1105/10, 1085/10⟩
            ⟨110, 116, 117, 1098/10⟩ : ℚ) /
          ((patternsOf ⟨116, 115, 117, 1145/10⟩ ⟨114, 113, 115, 1125/10⟩
            ⟨113, 112, 114, 1115/10⟩ ⟨110, 1095/10, 1105/10, 1085/10⟩
            ⟨110, 116, 117, 1098/10⟩).length : ℚ)))) ∧
    convert_to_stars (7/2) =
      starString ((⌊(7/2:ℚ)⌋).toNat +
        if (1/2:ℚ) ≤ (7/2:ℚ) - (⌊(7/2:ℚ)⌋:ℚ) then 1 else 0) := by
  exact ⟨candlestick_strength_stars.1 _ _ _ _ _ (by decide),
    candlestick_strength_stars.2.1 (7/2) (by norm_num) (by norm_num)⟩

unseal Rat.sub Rat.add Rat.mul Rat.inv Rat.ofScientific in
/-- Counterexample to claim C1 as stated.  First input: the latest bar is a
doji (also a long-legged doji and spinning top) — three retained
single-day patterns, all neutral, so neither counter receives their weight
and the suggestion is the tie branch 市场震荡, contradicting "every retained
pattern match adds its group-size weight to either the bullish or the
bearish counter".  Second input: a morning star (weight 3) plus a bullish
three-line strike (weight 4) give score 3.5 — star rating ★★★★☆ (four
filled stars) with a dominant bullish counter, yet the suggestion is the
plain 看涨信号, not the "strong" variant, because the raw score 3.5 < 4. -/
theorem candlestick_suggestion_counterexample :
    (analyze_candlestick_patterns [⟨100, 100, 100, 100⟩, ⟨100, 100, 100, 100⟩,
        ⟨100, 100, 100, 100⟩, ⟨100, 100, 100, 100⟩, ⟨100, 1002/10, 102, 98⟩] =
      Except.ok ⟨[("今日形态", "十字星"), ("今日形态", "长腿十字星"), ("今日形态", "纺锤线")],
        "★☆☆☆☆", "市场震荡"⟩) ∧
    (analyze_candlestick_patterns [⟨116, 115, 117, 1145/10⟩, ⟨114, 113, 115, 1125/10⟩,
        ⟨113, 112, 114, 1115/10⟩, ⟨110, 1095/10, 1105/10, 1085/10⟩,
        ⟨110, 116, 117, 1098/10⟩] =
      Except.ok ⟨[("三日形态", "启明星形态"), ("四日形态", "看涨三线打击形态")],
        "★★★★☆", "看涨信号"⟩) := by decide

unseal Rat.sub Rat.add Rat.mul Rat.inv Rat.ofScientific in
/-- Claim C2: per multi-day group the retained pattern is the
first-registered candidate of maximal priority (head of the stable
descending sort); the result holds one entry per matching group with
single-day matches kept unfiltered; and on a concrete two-bar tail where
the bullish engulfing (priority 5) and the tweezer bottom (priority 3)
match simultaneously, only the priority-5 engulfing is retained and only
its weight is counted. -/
theorem pattern_priority_resolution :
    (∀ l : List PatternMatch, selectTopPattern l = firstMaxPriority l) ∧
    (∀ b1 b2 b3 b4 b5 : Bar,
      patternsOf b1 b2 b3 b4 b5 =
        (one_day_matches b5.op b5.cl b5.hi b5.lo).map (fun p => ("今日形态", p.1)) ++
        optEntry (selectTopPattern (two_day_patterns b4 b5)) ++
        optEntry (selectTopPattern (three_day_patterns b3 b4 b5)) ++
        optEntry (selectTopPattern (four_day_patterns b2 b3 b4 b5)) ++
        optEntry (selectTopPattern (five_day_patterns b1 b2 b3 b4 b5))) ∧
    (⟨"两日形态", "看涨吞没形态", 5, true⟩ ∈
      two_day_patterns ⟨102, 101, 103, 100⟩ ⟨1005/10, 103, 1035/10, 100⟩) ∧
    (⟨"两日形态", "镊子底形态", 3, true⟩ ∈
      two_day_patterns ⟨102, 101, 103, 100⟩ ⟨1005/10, 103, 1035/10, 100⟩) ∧
    selectTopPattern (two_day_patterns ⟨102, 101, 103, 100⟩ ⟨1005/10, 103, 1035/10, 100⟩) =
      some ⟨"两日形态", "看涨吞没形态", 5, true⟩ ∧
    analyze_candlestick_patterns [⟨100, 100, 100, 100⟩, ⟨100, 100, 100, 100⟩,
        ⟨100, 100, 100, 100⟩, ⟨102, 101, 103, 100⟩, ⟨1005/10, 103, 1035/10, 100⟩] =
      Except.ok ⟨[("两日形态", "看涨吞没形态")], "★★☆☆☆", "看涨信号"⟩ := by
  exact ⟨selectTopPattern_eq_firstMaxPriority, fun b1 b2 b3 b4 b5 => rfl,
    by decide, by decide, by decide, by decide⟩

unseal Rat.sub Rat.add Rat.mul Rat.inv Rat.ofScientific in
/-- Counterexample to claim C7: on the bar open=100, close=101, high=101.2,
low=95 the upper shadow is 0.2, which exceeds 10% of the body (0.1), so
`is_hammer` returns false — the spec's example is arithmetically wrong. -/
theorem hammer_example_counterexample :
    is_hammer 100 101 (1012/10) 95 = false := by decide

unseal Rat.sub Rat.add Rat.mul Rat.inv Rat.ofScientific in
/-- Claim C7 (amended): on the bar open=100, close=101, high=101.2, low=95
the upper shadow 0.2 violates the ≤ 10%-of-body bound, so `is_hammer` is
false; lowering the high to 101.1 (upper shadow 0.1) satisfies all three
conditions and `is_hammer` is true. -/
theorem hammer_example_amended :
    ((1012:ℚ)/10 - max 100 101 > |(100:ℚ) - 101| * (1/10)) ∧
    is_hammer 100 101 (1012/10) 95 = false ∧
    is_hammer 100 101 (1011/10) 95 = true := by decide

unseal Rat.sub Rat.add Rat.mul Rat.inv Rat.ofScientific in
/-- Counterexample to claim C4 as stated: with yesterday's fast MA equal to
the slow MA (diff_yesterday = 0, so A[t-1] ≤ B[t-1]) and today's fast MA
above it, `_analyze_ma_crossover` reports no signal at all — its golden
cross requires the strictly negative `yesterday_diff < 0`, not `≤ 0`. -/
theorem ma_crossover_counterexample :
    analyze_ma_crossover [⟨10, 10, 10, 10⟩, ⟨11, 10, 10, 10⟩] = Except.ok [] := by decide

/-- Claim C4 (amended): the four MA pair checks report a golden cross
exactly when `diff_today > 0` and `diff_yesterday < 0` (strictly), a death
cross in the mirror case, and nothing otherwise — in particular nothing
when the sign does not change or when yesterday's difference is zero;
the MACD DIF/DEA check reports 金叉信号 exactly when DIF > DEA today and
DIF ≤ DEA yesterday (equality counts), mirror for 死叉信号. -/
theorem crossover_rules :
    (∀ (n1 n2 : String) (ts tl ps pl : ℚ),
      ((pairCrossSignals n1 n2 ts tl ps pl).map (fun s => s.ctype) = ["golden_cross"] ↔
        0 < ts - tl ∧ ps - pl < 0) ∧
      ((pairCrossSignals n1 n2 ts tl ps pl).map (fun s => s.ctype) = ["death_cross"] ↔
        ts - tl < 0 ∧ 0 < ps - pl) ∧
      (pairCrossSignals n1 n2 ts tl ps pl = [] ↔
        ¬(0 < ts - tl ∧ ps - pl < 0) ∧ ¬(ts - tl < 0 ∧ 0 < ps - pl))) ∧
    (∀ latest prev : MARow,
      analyze_ma_crossover [prev, latest] = Except.ok
        (pairCrossSignals "ma_qfq_5" "ma_qfq_10" latest.ma5 latest.ma10 prev.ma5 prev.ma10 ++
         pairCrossSignals "ma_qfq_5" "ma_qfq_20" latest.ma5 latest.ma20 prev.ma5 prev.ma20 ++
         pairCrossSignals "ma_qfq_10" "ma_qfq_20" latest.ma10 latest.ma20 prev.ma10 prev.ma20 ++
         pairCrossSignals "ma_qfq_20" "ma_qfq_30" latest.ma20 latest.ma30 prev.ma20 prev.ma30)) ∧
    (∀ latest prev : AggRow,
      (ti_analyze_macd_short_term_signal [prev, latest] = Except.ok "金叉信号" ↔
        latest.macd_dif > latest.macd_dea ∧ prev.macd_dif ≤ prev.macd_dea) ∧
      (ti_analyze_macd_short_term_signal [prev, latest] = Except.ok "死叉信号" ↔
        latest.macd_dif < latest.macd_dea ∧ prev.macd_dif ≥ prev.macd_dea)) := by
  refine ⟨?_, fun latest prev => rfl, ?_⟩
  · intro n1 n2 ts tl ps pl
    unfold pairCrossSignals
    dsimp only
    split_ifs with h1 h2 <;> simp_all <;>
      (intro h3; exact absurd h3 (by obtain ⟨ha, hb⟩ := h1; linarith))
  · intro latest prev
    have hbody : ti_analyze_macd_short_term_signal [prev, latest] =
        (if latest.macd_dif > latest.macd_dea ∧ prev.macd_dif ≤ prev.macd_dea then
          Except.ok "金叉信号"
        else if latest.macd_dif < latest.macd_dea ∧ prev.macd_dif ≥ prev.macd_dea then
          Except.ok "死叉信号"
        else if latest.macd > 0 ∧ latest.macd > prev.macd then Except.ok "红柱放大"
        else if latest.macd > 0 ∧ latest.macd < prev.macd then Except.ok "红柱缩小"
        else if latest.macd < 0 ∧ latest.macd < prev.macd then Except.ok "绿柱放大"
        else if latest.macd < 0 ∧ latest.macd > prev.macd then Except.ok "绿柱缩小"
        else Except.ok "无明显信号") := rfl
    rw [hbody]
    split_ifs with h1 h2 h3 h4 h5 h6 <;> simp_all <;>
      (intro h7; exact absurd h7 (by obtain ⟨ha, hb⟩ := h1; linarith))

/-! ## The KDJ divergence analysis never fires -/

theorem nanGtO_none_left (x : Option ℚ) : nanGtO none x = false := by
  cases x <;> rfl

theorem nanLtO_none_left (x : Option ℚ) : nanLtO none x = false := by
  cases x <;> rfl

theorem ilocO_rollingCenterMax_last (s : List ℚ) :
    ilocO (rollingCenterMax s) 1 = none := by
  unfold ilocO rollingCenterMax
  rcases Nat.eq_zero_or_pos s.length with h | h
  · rw [if_neg]
    simp [h]
  · rw [if_pos (by simp only [List.length_map, List.length_range]; omega)]
    simp only [List.length_map, List.length_range]
    rw [List.getD_eq_getElem?_getD, List.getElem?_map, List.getElem?_range (by omega)]
    simp only [Option.map_some']
    rw [if_neg (by omega)]
    rfl

theorem ilocO_rollingCenterMin_last (s : List ℚ) :
    ilocO (rollingCenterMin s) 1 = none := by
  unfold ilocO rollingCenterMin
  rcases Nat.eq_zero_or_pos s.length with h | h
  · rw [if_neg]
    simp [h]
  · rw [if_pos (by simp only [List.length_map, List.length_range]; omega)]
    simp only [List.length_map, List.length_range]
    rw [List.getD_eq_getElem?_getD, List.getElem?_map, List.getElem?_range (by omega)]
    simp only [Option.map_some']
    rw [if_neg (by omega)]
    rfl

theorem kdj_divergence_always_none (data : List KdjRow) :
    kdj_analyze_divergence data = "无背离" := by
  unfold kdj_analyze_divergence
  dsimp only
  rw [ilocO_rollingCenterMax_last, ilocO_rollingCenterMin_last,
    nanGtO_none_left, nanLtO_none_left]
  rfl

unseal Rat.sub Rat.add Rat.mul Rat.inv Rat.ofScientific in
/-- Claim C5 (code bug): on a ten-bar window whose closes rise strictly
while the K line falls strictly — the canonical top-divergence shape — the
KDJ divergence analysis still answers 无背离 (no divergence); indeed it
answers 无背离 on EVERY window of length at least 5 (shorter windows raise
at `iloc[-5]`), because `rolling(window=5, center=True)` is NaN at the last
two positions, `iloc[-1]` of the rolling series is therefore always NaN,
and every comparison against NaN is false.  The top/bottom divergence
branches of `_analyze_divergence` are dead code. -/
theorem kdj_divergence_failing_input :
    kdj_analyze_divergence
      ((List.range 10).map fun i => ⟨(i:ℚ) + 1, 10 - (i:ℚ), 50, 50⟩) = "无背离" ∧
    (∀ data : List KdjRow, 5 ≤ data.length → kdj_analyze_divergence data = "无背离") :=
  ⟨by decide, fun data _ => kdj_divergence_always_none data⟩

unseal Rat.sub Rat.add Rat.mul Rat.inv Rat.ofScientific in
/-- Witness for claim C5: the universal part applied to the ten-bar
top-divergence-shaped window. -/
theorem kdj_divergence_failing_input_witness :
    kdj_analyze_divergence
      ((List.range 10).map fun i => ⟨(i:ℚ) + 1, 10 - (i:ℚ), 50, 50⟩) = "无背离" :=
  kdj_divergence_failing_input.2 _ (by decide)

/-! ## Degenerate arithmetic on constant windows -/

theorem getD_replicate_lt {α : Type} (n i : ℕ) (c d : α) (h : i < n) :
    (List.replicate n c).getD i d = c := by
  rw [List.getD_eq_getElem?_getD, List.getElem?_replicate]
  simp [h]

theorem ilocNeg_replicate_one {α : Type} [Inhabited α] (n : ℕ) (r : α) (h : 1 ≤ n) :
    ilocNeg (List.replicate n r) 1 = Except.ok r := by
  unfold ilocNeg
  rw [if_pos (by simp only [List.length_replicate]; omega)]
  simp only [List.length_replicate]
  rw [getD_replicate_lt n (n - 1) r default (by omega)]

theorem meanQF_replicate (n : ℕ) (c : ℚ) (h : 1 ≤ n) :
    meanQF (List.replicate n c) = .val c := by
  unfold meanQF
  rw [if_neg (by simp only [List.length_replicate]; omega)]
  simp only [List.length_replicate, List.sum_replicate, nsmul_eq_mul]
  congr 1
  have hn : (n:ℚ) ≠ 0 := by
    exact_mod_cast (by omega : n ≠ 0)
  field_simp

theorem sampleVarQ_replicate (n : ℕ) (c : ℚ) (h : 2 ≤ n) :
    sampleVarQ (List.replicate n c) = .val 0 := by
  unfold sampleVarQ
  rw [if_neg (by simp only [List.length_replicate]; omega)]
  simp only [List.length_replicate, List.sum_replicate, nsmul_eq_mul, List.map_replicate]
  have hn : (n:ℚ) ≠ 0 := by
    exact_mod_cast (by omega : n ≠ 0)
  congr 1
  rw [mul_comm (n:ℚ) c]
  have hz : c - c * (n:ℚ) / (n:ℚ) = 0 := by field_simp
  rw [hz]
  simp

theorem isStdOf_val_zero (s : PyFloat) (h : isStdOf s (.val 0)) : s = .val 0 := by
  cases s with
  | val q =>
    obtain ⟨h1, h2⟩ := h
    rw [mul_self_eq_zero.1 h2]
  | pinf => exact absurd h (by simp [isStdOf])
  | ninf => exact absurd h (by simp [isStdOf])
  | nan => exact absurd h (by simp [isStdOf])

theorem kdj_strength_const (n : ℕ) (r : KdjRow) (hn : 2 ≤ n)
    (ks ds js : PyFloat)
    (hks : isStdOf ks (sampleVarQ ((List.replicate n r).map (·.kdj_k))))
    (hds : isStdOf ds (sampleVarQ ((List.replicate n r).map (·.kdj_d))))
    (hjs : isStdOf js (sampleVarQ ((List.replicate n r).map (·.kdj_j)))) :
    kdj_analyze_strength (List.replicate n r) ks ds js = Except.ok "较弱" := by
  rw [List.map_replicate, sampleVarQ_replicate _ _ hn] at hks hds hjs
  obtain rfl := isStdOf_val_zero _ hks
  obtain rfl := isStdOf_val_zero _ hds
  obtain rfl := isStdOf_val_zero _ hjs
  unfold kdj_analyze_strength
  rw [ilocNeg_replicate_one _ _ (by omega)]
  show (let k_dev := pyDivF (pyAbs (pySub (.val r.kdj_k)
      (meanQF ((List.replicate n r).map (·.kdj_k))))) (.val 0)
    let d_dev := pyDivF (pyAbs (pySub (.val r.kdj_d)
      (meanQF ((List.replicate n r).map (·.kdj_d))))) (.val 0)
    let j_dev := pyDivF (pyAbs (pySub (.val r.kdj_j)
      (meanQF ((List.replicate n r).map (·.kdj_j))))) (.val 0)
    let avg_dev := pyDivF (pyAdd (pyAdd k_dev d_dev) j_dev) (.val 3)
    if pyGt avg_dev (.val 2) then Except.ok "极强"
    else if pyGt avg_dev (.val (3/2)) then Except.ok "较强"
    else if pyGt avg_dev (.val 1) then Except.ok "中等"
    else Except.ok "较弱") = Except.ok "较弱"
  have hmean : ∀ g : KdjRow → ℚ, meanQF ((List.replicate n r).map g) = .val (g r) := by
    intro g
    rw [List.map_replicate]
    exact meanQF_replicate _ _ (by omega)
  simp only [hmean]
  have hsub : ∀ c : ℚ, pySub (.val c) (.val c) = .val 0 := by
    intro c
    simp [pySub, pyNeg, pyAdd]
  simp only [hsub]
  have habs : pyAbs (.val 0) = .val 0 := by simp [pyAbs]
  have hdiv : pyDivF (.val 0) (.val 0) = .nan := by simp [pyDivF, pyDiv]
  simp only [habs, hdiv]
  rfl

theorem boll_pattern_flat_band (n : ℕ) (r : BollRow) (hn : 1 ≤ n)
    (hup : r.boll_upper = r.boll_lower) (hmid : r.boll_mid ≠ 0) :
    boll_analyze_pattern (List.replicate n r) = Except.ok "常态运行" := by
  unfold boll_analyze_pattern
  rw [ilocNeg_replicate_one _ _ hn]
  show (let position := pyDiv (r.close - r.boll_lower) (r.boll_upper - r.boll_lower)
    let bandwidths := (List.replicate n r).map fun s =>
      pyMul (pyDiv (s.boll_upper - s.boll_lower) s.boll_mid) (.val 100)
    let bandwidth_trend := pyTrendSlope bandwidths
    if pyGt position (.val (8/10)) && pyGt bandwidth_trend (.val 0) then Except.ok "上轨扩张"
    else if pyLt position (.val (2/10)) && pyGt bandwidth_trend (.val 0) then Except.ok "下轨扩张"
    else if pyGt position (.val (8/10)) && pyLt bandwidth_trend (.val 0) then Except.ok "上轨收敛"
    else if pyLt position (.val (2/10)) && pyLt bandwidth_trend (.val 0) then Except.ok "下轨收敛"
    else if pyLt (pyAbs (pySub position (.val (1/2)))) (.val (1/10)) then Except.ok "中轨平衡"
    else Except.ok "常态运行") = Except.ok "常态运行"
  have hbw : (List.replicate n r).map (fun s =>
      pyMul (pyDiv (s.boll_upper - s.boll_lower) s.boll_mid) (.val 100)) =
      List.replicate n (.val 0) := by
    rw [List.map_replicate]
    congr 1
    rw [hup, sub_self]
    simp [pyDiv, hmid, pyMul]
  have htrend : pyTrendSlope (List.replicate n (.val 0)) = .val 0 := by
    unfold pyTrendSlope
    rw [if_pos]
    · congr 1
      rw [List.map_replicate]
      unfold calculate_trend_slope
      rw [lsNum_const _ _ 0 (fun i hi => getD_replicate_lt _ _ _ _ (by simpa using hi))]
      simp
    · rw [List.all_eq_true]
      intro x hx
      rw [List.eq_of_mem_replicate hx]
  simp only [hbw, htrend]
  rw [hup, sub_self]
  have hgt0 : pyGt (PyFloat.val 0) (.val 0) = false := by simp [pyGt, pyLt]
  have hlt0 : pyLt (PyFloat.val 0) (.val 0) = false := by simp [pyLt]
  simp only [hgt0, hlt0, Bool.and_false, Bool.false_eq_true, if_false]
  rcases lt_trichotomy (r.close - r.boll_lower) 0 with hx | hx | hx
  · have : pyDiv (r.close - r.boll_lower) 0 = .ninf := by
      simp [pyDiv, hx, asymm hx]
    rw [this]
    rfl
  · have : pyDiv (r.close - r.boll_lower) 0 = .nan := by
      simp [pyDiv, hx]
    rw [this]
    rfl
  · have : pyDiv (r.close - r.boll_lower) 0 = .pinf := by
      simp [pyDiv, hx, asymm hx]
    rw [this]
    rfl

theorem boll_long_term_flat (n : ℕ) (r : BollRow)
    (hup : r.boll_upper = r.boll_lower) (hclose : r.close = r.boll_lower) :
    boll_analyze_long_term_trend (List.replicate n r) = "中位震荡（40天）" := by
  unfold boll_analyze_long_term_trend
  have hmid : calculate_trend_direction ((List.replicate n r).map (·.boll_mid)) = 0 := by
    rw [List.map_replicate]
    unfold calculate_trend_direction calculate_trend_slope
    rw [lsNum_const _ _ r.boll_mid (fun i hi => getD_replicate_lt _ _ _ _ (by simpa using hi))]
    simp
  have hratios : (List.replicate n r).map (fun s =>
      pyDiv (s.close - s.boll_lower) (s.boll_upper - s.boll_lower)) =
      List.replicate n PyFloat.nan := by
    rw [List.map_replicate]
    congr 1
    rw [hup, hclose, sub_self]
    simp [pyDiv]
  have hmean : pyMean (List.replicate n PyFloat.nan) = .nan := by
    unfold pyMean
    rw [if_pos]
    rw [List.length_eq_zero]
    apply List.eq_nil_iff_forall_not_mem.2
    intro x hx
    have := List.of_mem_filter hx
    have hm := List.mem_of_mem_filter hx
    rw [List.eq_of_mem_replicate hm] at this
    simp at this
  simp only [hmid, hratios, hmean]
  rw [if_neg (lt_irrefl 0), if_neg (lt_irrefl 0)]
  rfl

/-- Claim C8: on analysis windows with constant indicator values (so that
the standard deviation, respectively the band width, used as a denominator
is zero), the affected classifiers do not propagate an arithmetic fault:
the zero denominator yields a NaN (float64 semantics, no exception), every
NaN comparison is false, and each classifier falls through to its default
branch — 较弱 for the KDJ strength, 常态运行 for the BOLL pattern and
中位震荡（40天） for the BOLL long-term position — so the division-by-zero
never decides the produced result. -/
theorem degenerate_arithmetic_neutral :
    (∀ (n : ℕ) (r : KdjRow) (ks ds js : PyFloat), 2 ≤ n →
      isStdOf ks (sampleVarQ ((List.replicate n r).map (·.kdj_k))) →
      isStdOf ds (sampleVarQ ((List.replicate n r).map (·.kdj_d))) →
      isStdOf js (sampleVarQ ((List.replicate n r).map (·.kdj_j))) →
      kdj_analyze_strength (List.replicate n r) ks ds js = Except.ok "较弱") ∧
    (∀ (n : ℕ) (r : BollRow), 1 ≤ n → r.boll_upper = r.boll_lower → r.boll_mid ≠ 0 →
      boll_analyze_pattern (List.replicate n r) = Except.ok "常态运行") ∧
    (∀ (n : ℕ) (r : BollRow), r.boll_upper = r.boll_lower → r.close = r.boll_lower →
      boll_analyze_long_term_trend (List.replicate n r) = "中位震荡（40天）") :=
  ⟨fun n r ks ds js hn hks hds hjs => kdj_strength_const n r hn ks ds js hks hds hjs,
   fun n r hn hup hmid => boll_pattern_flat_band n r hn hup hmid,
   fun n r hup hclose => boll_long_term_flat n r hup hclose⟩

/-- Witness for claim C8 at concrete constant windows. -/
theorem degenerate_arithmetic_neutral_witness :
    kdj_analyze_strength (List.replicate 20 ⟨10, 55, 56, 57⟩)
      (.val 0) (.val 0) (.val 0) = Except.ok "较弱" ∧
    boll_analyze_pattern (List.replicate 10 ⟨10, 10, 10, 10⟩) = Except.ok "常态运行" ∧
    boll_analyze_long_term_trend (List.replicate 40 ⟨10, 10, 10, 10⟩) = "中位震荡（40天）" := by
  refine ⟨degenerate_arithmetic_neutral.1 20 _ (.val 0) (.val 0) (.val 0) (by norm_num) ?_ ?_ ?_,
    degenerate_arithmetic_neutral.2.1 10 _ (by norm_num) rfl (by norm_num),
    degenerate_arithmetic_neutral.2.2 40 _ rfl rfl⟩
  all_goals
    rw [List.map_replicate, sampleVarQ_replicate _ _ (by norm_num)]
    exact ⟨le_refl 0, by norm_num⟩

/-! ## The aggregator and error propagation -/

unseal Rat.sub Rat.add Rat.mul Rat.inv Rat.ofScientific in
/-- Counterexample to claim C9: `analyze_indicators` has no per-family
`try`/`except`.  On a one-row table the MACD family's short-term step
raises (pandas `iloc[-2]` out-of-bounds) and the whole aggregation aborts
with that error — no output map is produced — although the KDJ, RSI and
BOLL family analyses each succeed on the very same window. -/
theorem aggregator_no_isolation_counterexample :
    analyze_indicators [⟨10, 1, 2, 1, 50, 50, 50, 50, 50, 50, 11, 10, 9⟩] .nan .nan =
      Except.error "single positional indexer is out-of-bounds" ∧
    ti_analyze_macd_short_term_signal [⟨10, 1, 2, 1, 50, 50, 50, 50, 50, 50, 11, 10, 9⟩] =
      Except.error "single positional indexer is out-of-bounds" ∧
    ti_analyze_kdj_trend [⟨10, 1, 2, 1, 50, 50, 50, 50, 50, 50, 11, 10, 9⟩] .nan =
      Except.ok "盘整" ∧
    ti_analyze_rsi_trend [⟨10, 1, 2, 1, 50, 50, 50, 50, 50, 50, 11, 10, 9⟩] =
      Except.ok "盘整（上升趋势）" ∧
    ti_analyze_boll_trend [⟨10, 1, 2, 1, 50, 50, 50, 50, 50, 50, 11, 10, 9⟩] =
      Except.ok "运行于下轨区间（带宽扩大）" := by decide

/-- Claim C9 (amended): the aggregator provides no isolation: whenever the
MACD comprehensive analysis fails (and the input is nonempty, so that the
aggregator reaches it), `analyze_indicators` propagates that very error and
none of the other families' results are computed or included. -/
theorem aggregator_failure_propagates (df : List AggRow) (ms ks : PyFloat) (e : String)
    (hne : 1 ≤ df.length)
    (hfail : analyze_macd_comprehensive df (tailN df 40) (tailN df 20) (tailN df 10) ms =
      Except.error e) :
    analyze_indicators df ms ks = Except.error e := by
  unfold analyze_indicators
  dsimp only
  have h1 : ilocNeg df 1 = Except.ok (df.getD (df.length - 1) default) := by
    unfold ilocNeg
    rw [if_pos ⟨by omega, hne⟩]
  rw [h1, hfail]
  rfl

unseal Rat.sub Rat.add Rat.mul Rat.inv Rat.ofScientific in
/-- Witness for claim C9 at the concrete one-row table. -/
theorem aggregator_failure_propagates_witness :
    analyze_indicators [(⟨10, 1, 2, 1, 50, 50, 50, 50, 50, 50, 11, 10, 9⟩ : AggRow)]
      .nan .nan = Except.error "single positional indexer is out-of-bounds" :=
  aggregator_failure_propagates _ .nan .nan _ (by norm_num) (by decide)
